import Mathlib

/-! Open3D visualizer: `Receiver::ProcessMessage` and `Receiver::SetGeometry`.

A shallow embedding of `cpp/open3d/visualization/visualizer/Receiver.cpp`.

* Buffers are byte lists; `Ptr<T>()[k]` reads `sizeof(T)` bytes and is `none`
  past the end of the buffer (undefined behaviour in the C++).
* `double` and `float` values are carried by their IEEE-754 bit patterns; they
  are only copied, never computed with.
* `LogInfo` writes to the process log only; the log is not part of the
  modelled outcome, so the `errstr` out-parameters of `CheckType` and
  `CheckShape`, which only feed the log, are dropped.
* The receiver is one whose `scene_` and `gui_visualizer_` are set: the branch
  `if (!scene_) LogError("scene is null")` at the top of `ProcessMessage` is
  not taken, and the posted closure calls into both.
* `open3d/io/rpc/Messages.h` is declared outside `Receiver.cpp`: what the
  spec fixes of it is modelled from the spec, the rest is a field of `Env`.
-/

namespace open3d

/-! ## Data model -/

/-- Modelled from the spec: the element type tag of a `messages::Array`
(`messages::TypeStr<T>()`), "one of a fixed enumerable set: float32, float64,
int32, int64, ...". Every other tag is `other`, with its element size. -/
inductive TypeStr where
  | float
  | double
  | int32_t
  | int64_t
  | other (itemsize : Nat)
  deriving DecidableEq, Repr

/-- Element size in bytes (`sizeof(T)`). -/
def TypeStr.itemsize : TypeStr → Nat
  | .float => 4
  | .double => 8
  | .int32_t => 4
  | .int64_t => 8
  | .other n => n

/-- A C++ `double`, by its 64-bit pattern. -/
abbrev double := Nat

/-- A C++ `float`, by its 32-bit pattern. -/
abbrev float := Nat

/-- The `messages::Array` of the wire format: type tag, shape, raw bytes
(`data.ptr`, `data.size`). Bytes are naturals, read modulo 256. -/
structure Array where
  type : TypeStr
  shape : List Int
  data : List Nat
  deriving DecidableEq, Repr

/-- The fields of `messages::MeshData` that `ProcessMessage` reads.
`vertex_attributes` is a `std::map<std::string, Array>`, here an association
list looked up by key. -/
structure MeshData where
  vertices : Array
  vertex_attributes : List (String × Array)
  faces : Array
  deriving DecidableEq, Repr

/-- The `messages::SetMeshData` message. -/
structure SetMeshData where
  path : String
  time : Int
  layer : String
  data : MeshData
  deriving DecidableEq, Repr

/-- The `messages::Request` header; `ProcessMessage` does not read it. -/
structure Request where
  msg_id : String
  deriving DecidableEq, Repr

/-- Modelled from the spec: the status of a reply, "either OK or an error
status"; only the two codes `ProcessMessage` can return are listed. -/
inductive StatusCode where
  | OK
  | ErrorProcessingMessage
  deriving DecidableEq, Repr

/-- A `messages::Status`: code and payload string. -/
structure Status where
  code : StatusCode
  str : String
  deriving DecidableEq, Repr

/-- An `Eigen::Vector3d`. -/
structure Vector3d where
  x : double
  y : double
  z : double
  deriving DecidableEq, Repr

/-- An `Eigen::Vector3i`; components are C++ `int` (32-bit signed). -/
structure Vector3i where
  x : Int
  y : Int
  z : Int
  deriving DecidableEq, Repr

/-- The members of `geometry::PointCloud` that `ProcessMessage` writes. A
fresh `make_shared<PointCloud>()` has all three empty. -/
structure PointCloud where
  points_ : List Vector3d := []
  normals_ : List Vector3d := []
  colors_ : List Vector3d := []
  deriving DecidableEq, Repr

/-- The members of `geometry::TriangleMesh` that `ProcessMessage` writes. -/
structure TriangleMesh where
  vertices_ : List Vector3d := []
  vertex_normals_ : List Vector3d := []
  vertex_colors_ : List Vector3d := []
  triangles_ : List Vector3i := []
  deriving DecidableEq, Repr

/-- Modelled from the spec: "Geometry: a discriminated union of
{PointCloud, TriangleMesh}" (the `geometry::Geometry3D` objects built here). -/
inductive Geometry3D where
  | PointCloud (pcd : PointCloud)
  | TriangleMesh (mesh : TriangleMesh)
  deriving DecidableEq, Repr

/-- The values of `geometry::Geometry::GeometryType` of the two kinds. -/
inductive GeometryType where
  | PointCloud
  | TriangleMesh
  deriving DecidableEq, Repr

/-- The virtual `Geometry::GetGeometryType()`. -/
def Geometry3D.GetGeometryType : Geometry3D → GeometryType
  | .PointCloud _ => .PointCloud
  | .TriangleMesh _ => .TriangleMesh

/-- The default-constructed `rendering::Material()`. -/
structure Material where
  deriving DecidableEq, Repr

/-- A call the posted unit of work makes on its collaborators: the three on
the visualizer `vis`, `AddGeometry` on the scene. -/
inductive UICall where
  | UpdatePointcloudUI
  | AddGeometry (name : String) (geom : Geometry3D) (material : Material)
  | UpdatePointcloudCamera
  | ForceRedraw
  deriving DecidableEq, Repr

/-- The lambda `[vis, geom, path, time, layer, scene]` that `SetGeometry`
posts to the main thread; `geom` is a `shared_ptr`, `none` when null. -/
structure Closure where
  geom : Option Geometry3D
  path : String
  time : Int
  layer : String
  deriving DecidableEq, Repr

/-- What one run of `ProcessMessage` produces: the status packed into the
returned reply and the work posted to the main thread, in posting order. -/
structure Outcome where
  reply : Status
  posted : List Closure
  deriving DecidableEq, Repr

/-- What `ProcessMessage` uses and `Receiver.cpp` does not define. -/
structure Env where
  /-- The validator `MeshData::CheckMessage(errstr)`: given the message and
  the incoming `errstr`, whether it passed and the `errstr` it leaves. -/
  CheckMessage : MeshData → String → Bool × String
  /-- The `str` of a fresh `Status::ErrorProcessingMessage()`. -/
  ErrorProcessingMessage_str : String
  /-- The conversion `float → double` of the platform, on bit patterns. -/
  widen : float → double

/-! ## Validators of `messages::Array` -/

/-- Modelled from the spec: `Array::CheckType(expected_types, errstr)`
"succeeds iff `a.type ∈ allowed`". -/
def Array.CheckType (a : Array) (expected_types : List TypeStr) : Bool :=
  expected_types.contains a.type

/-- Modelled from the spec: `Array::CheckShape(expected_shape, errstr)`
"succeeds iff `rank(a.shape) == rank(expected)` and for every non-wildcard
position `i`, `a.shape[i] == expected[i]`", the wildcard being `-1`. -/
def Array.CheckShape (a : Array) (expected_shape : List Int) : Bool :=
  a.shape.length == expected_shape.length &&
    (a.shape.zip expected_shape).all fun p => p.2 == -1 || p.1 == p.2

/-- Modelled from the spec: `Array::CheckNonEmpty()` is "true iff shape has at
least one dimension with size > 0". -/
def Array.CheckNonEmpty (a : Array) : Bool :=
  a.shape.any fun d => decide (0 < d)

/-- Modelled from the spec: the TypedArray invariant "byte span length ==
product(shape) × element size". -/
def Array.Invariant (a : Array) : Prop :=
  (a.data.length : Int) = a.shape.prod * (a.type.itemsize : Int)

instance (a : Array) : Decidable a.Invariant := by
  unfold Array.Invariant
  infer_instance

/-- The TypedArray invariant on every array of a message. -/
def MeshData.Invariant (d : MeshData) : Prop :=
  d.vertices.Invariant ∧ d.faces.Invariant ∧ ∀ p ∈ d.vertex_attributes, p.2.Invariant

instance (d : MeshData) : Decidable d.Invariant := by
  unfold MeshData.Invariant
  infer_instance

/-! ## Reading elements through `Ptr<T>()` -/

/-- Little-endian value of a run of bytes. -/
def leValue : List Nat → Nat
  | [] => 0
  | b :: bs => b % 256 + 256 * leValue bs

/-- Two-complement reading of the low `w` bits of `u`. -/
def toSigned (w : Nat) (u : Nat) : Int :=
  if u % 2 ^ w < 2 ^ (w - 1) then (u % 2 ^ w : Nat) else ((u % 2 ^ w : Nat) : Int) - 2 ^ w

/-- The `size` bytes of element `k` of the buffer seen as a `T*` with
`sizeof(T) = size`; `none` when they are not all inside the buffer. -/
def Array.bytesAt (a : Array) (size k : Nat) : Option (List Nat) :=
  if size * k + size ≤ a.data.length then some ((a.data.drop (size * k)).take size) else none

/-- `Ptr<float>()[k]`. -/
def Array.Ptr_float (a : Array) (k : Nat) : Option float :=
  (a.bytesAt 4 k).map leValue

/-- `Ptr<double>()[k]`. -/
def Array.Ptr_double (a : Array) (k : Nat) : Option double :=
  (a.bytesAt 8 k).map leValue

/-- `Ptr<int32_t>()[k]`. -/
def Array.Ptr_int32_t (a : Array) (k : Nat) : Option Int :=
  (a.bytesAt 4 k).map fun bs => toSigned 32 (leValue bs)

/-- `Ptr<int64_t>()[k]`. -/
def Array.Ptr_int64_t (a : Array) (k : Nat) : Option Int :=
  (a.bytesAt 8 k).map fun bs => toSigned 64 (leValue bs)

/-- The conversion `int64_t → int` of an assignment to a `Vector3i`
component: reduction modulo 2^32 into the signed range. -/
def narrow (v : Int) : Int :=
  toSigned 32 (v % 2 ^ 32).toNat

/-! ## The decoding loops -/

/-- The vector `resize(n)` of a `std::vector` with `n` an `int64_t`: a
negative `n` converts to a huge `size_t` and the call throws (`none`). New
entries are `dflt`. -/
def resize {β : Type} (dflt : β) (v : List β) (n : Int) : Option (List β) :=
  if n < 0 then none else some (v.take n.toNat ++ List.replicate (n.toNat - v.length) dflt)

/-- The loop
`for (int64_t i = 0; i < n; ++i) { dst[i] = (ptr[0], ptr[1], ptr[2]); ptr += 3; }`
from the state `(i, ptr, dst)` with `todo = n - i` rounds left. `rd k` is
`ptr[k]` counted from the start of the buffer, already converted to the
component type. -/
def copyRows {α β : Type} (rd : Nat → Option α) (mk : α → α → α → β) :
    Nat → Nat → Nat → List β → Option (List β)
  | 0, _, _, dst => some dst
  | todo + 1, i, ptr, dst =>
    match rd ptr, rd (ptr + 1), rd (ptr + 2) with
    | some x, some y, some z => copyRows rd mk todo (i + 1) (ptr + 3) (dst.set i (mk x y z))
    | _, _, _ => none

/-- The block `dst.resize(a.shape[0]); if (a.type == TypeStr<float>()) {loop}
if (a.type == TypeStr<double>()) {loop}` (lines 77-95, 112-130, 148-166,
214-232, 249-267, 286-304). `a.shape[0]` on an empty shape is undefined
(`none`). -/
def readVector3d (env : Env) (a : Array) (dst : List Vector3d) : Option (List Vector3d) :=
  match a.shape.head? with
  | none => none
  | some n => do
    let dst ← resize (Vector3d.mk 0 0 0) dst n
    let dst ←
      if a.type = TypeStr.float then
        copyRows (fun k => (a.Ptr_float k).map env.widen) Vector3d.mk n.toNat 0 0 dst
      else pure dst
    if a.type = TypeStr.double then
      copyRows a.Ptr_double Vector3d.mk n.toNat 0 0 dst
    else pure dst

/-- The block of one optional attribute (lines 99-132, 135-168, 235-269,
272-306): absent, of a wrong type or of a wrong shape leaves `mesh_attr` as it
is; otherwise it is resized and filled. -/
def readAttribute (env : Env) (vertex_attributes : List (String × Array)) (name : String)
    (mesh_attr : List Vector3d) : Option (List Vector3d) :=
  match vertex_attributes.lookup name with
  | none => some mesh_attr
  | some attr_arr =>
    if !attr_arr.CheckType [TypeStr.float, TypeStr.double] then some mesh_attr
    else if !attr_arr.CheckShape [-1, 3] then some mesh_attr
    else readVector3d env attr_arr mesh_attr

/-- The block `triangles_.resize(faces.shape[0]); if (faces.type ==
TypeStr<int32_t>()) {loop} if (faces.type == TypeStr<int64_t>()) {loop}`
(lines 181-199). -/
def readVector3i (a : Array) (dst : List Vector3i) : Option (List Vector3i) :=
  match a.shape.head? with
  | none => none
  | some n => do
    let dst ← resize (Vector3i.mk 0 0 0) dst n
    let dst ←
      if a.type = TypeStr.int32_t then
        copyRows a.Ptr_int32_t Vector3i.mk n.toNat 0 0 dst
      else pure dst
    if a.type = TypeStr.int64_t then
      copyRows (fun k => (a.Ptr_int64_t k).map narrow) Vector3i.mk n.toNat 0 0 dst
    else pure dst

/-! ## `Receiver::SetGeometry` -/

/-- The name under which the closure adds its geometry to the scene (line
327): `"geom_" + path + layer + std::to_string(time)`, where
`std::to_string(time)` is the decimal numeral of `time`. -/
def Closure.key (c : Closure) : String :=
  "geom_" ++ c.path ++ c.layer ++ toString c.time

/-- The body of the lambda posted by `SetGeometry` (lines 321-335): the calls
it makes, in order. `geom->GetGeometryType()` on a null `geom` is undefined
(`none`). -/
def Closure.run (c : Closure) : Option (List UICall) :=
  match c.geom with
  | none => none
  | some geom =>
    let is_point_cloud := geom.GetGeometryType == GeometryType.PointCloud
    let calls : List UICall :=
      if is_point_cloud && decide (c.time < 1) then [UICall.UpdatePointcloudUI] else []
    let calls := calls ++
      [UICall.AddGeometry c.key geom {}]
    let calls :=
      if is_point_cloud then
        (if c.time < 1 then calls ++ [UICall.UpdatePointcloudCamera] else calls) ++
          [UICall.ForceRedraw]
      else calls
    some calls

/-- `Receiver::SetGeometry(geom, path, time, layer)`: the work it hands to
`PostToMainThread`, one closure capturing the arguments by value. -/
def SetGeometry (geom : Option Geometry3D) (path : String) (time : Int) (layer : String) :
    List Closure :=
  [{ geom := geom, path := path, time := time, layer := layer }]

/-! ## `Receiver::ProcessMessage` -/

/-- `Status::OK()`, the status packed by `CreateStatusOKMsg()`. -/
def Status.OK : Status :=
  { code := StatusCode.OK, str := "" }

/-- `Receiver::ProcessMessage(req, msg, obj)` (lines 45-312); `obj` is not
read. `none` stands for a run that leaves defined behaviour or throws: a read
past a buffer, `shape[0]` of an empty shape, a `resize` to a negative size. -/
def ProcessMessage (env : Env) (_req : Request) (msg : SetMeshData) : Option Outcome :=
  let chk := env.CheckMessage msg.data ":"
  if !chk.1 then
    some
      { reply :=
          { code := StatusCode.ErrorProcessingMessage
            str := env.ErrorProcessingMessage_str ++ chk.2 }
        posted := [] }
  else if msg.data.faces.CheckNonEmpty then do
    -- create a TriangleMesh
    let mesh : TriangleMesh := {}
    let mesh ←
      if !msg.data.vertices.CheckType [TypeStr.float, TypeStr.double] then pure mesh
      else do
        let v ← readVector3d env msg.data.vertices mesh.vertices_
        pure { mesh with vertices_ := v }
    let vn ← readAttribute env msg.data.vertex_attributes "normals" mesh.vertex_normals_
    let mesh := { mesh with vertex_normals_ := vn }
    let vc ← readAttribute env msg.data.vertex_attributes "colors" mesh.vertex_colors_
    let mesh := { mesh with vertex_colors_ := vc }
    let mesh ←
      if !msg.data.faces.CheckShape [-1, 3] then pure mesh
      else if !msg.data.faces.CheckType [TypeStr.int32_t, TypeStr.int64_t] then pure mesh
      else do
        let t ← readVector3i msg.data.faces mesh.triangles_
        pure { mesh with triangles_ := t }
    pure
      { reply := Status.OK
        posted := SetGeometry (some (Geometry3D.TriangleMesh mesh)) msg.path msg.time msg.layer }
  else do
    -- create a PointCloud
    let pcd : PointCloud := {}
    let pcd ←
      if !msg.data.vertices.CheckType [TypeStr.float, TypeStr.double] then pure pcd
      else do
        let p ← readVector3d env msg.data.vertices pcd.points_
        let pcd := { pcd with points_ := p }
        let n ← readAttribute env msg.data.vertex_attributes "normals" pcd.normals_
        let pcd := { pcd with normals_ := n }
        let c ← readAttribute env msg.data.vertex_attributes "colors" pcd.colors_
        pure { pcd with colors_ := c }
    pure
      { reply := Status.OK
        posted := SetGeometry (some (Geometry3D.PointCloud pcd)) msg.path msg.time msg.layer }

/-! ## Reading the decoded lists back -/

/-- Element `k` of the buffer as the `double` the loops of `readVector3d`
store: `Ptr<float>()[k]` converted for a float array, `Ptr<double>()[k]` for a
double array. -/
def Array.doubleAt (env : Env) (a : Array) (k : Nat) : Option double :=
  if a.type = TypeStr.float then (a.Ptr_float k).map env.widen
  else if a.type = TypeStr.double then a.Ptr_double k
  else none

/-- Element `k` of the buffer as the `int` the loops of `readVector3i` store:
`Ptr<int32_t>()[k]`, or `Ptr<int64_t>()[k]` converted. -/
def Array.intAt (a : Array) (k : Nat) : Option Int :=
  if a.type = TypeStr.int32_t then a.Ptr_int32_t k
  else if a.type = TypeStr.int64_t then (a.Ptr_int64_t k).map narrow
  else none

/-- The list `rows` has `n` entries and entry `i` is built from the elements
`3i`, `3i+1`, `3i+2` read through `rd`. -/
def Triples {α β : Type} (rd : Nat → Option α) (mk : α → α → α → β) (n : Nat)
    (rows : List β) : Prop :=
  rows.length = n ∧
    ∀ i, i < n → ∃ x y z, rd (3 * i) = some x ∧ rd (3 * i + 1) = some y ∧
      rd (3 * i + 2) = some z ∧ rows[i]? = some (mk x y z)

/-- The number a list of decimal digit characters writes. -/
def decimalValue (cs : List Char) : Nat :=
  cs.foldl (fun acc c => 10 * acc + (c.toNat - 48)) 0

/-! ## Sample inputs -/

/-- The IEEE-754 conversion binary32 to binary64 on bit patterns: infinities
and NaNs (quieted), zeros, subnormals (normalised), normal numbers. -/
def ieeeWiden (b : float) : double :=
  let s := b / 2 ^ 31 % 2
  let e := b / 2 ^ 23 % 256
  let m := b % 2 ^ 23
  if e = 255 then
    s * 2 ^ 63 + 2047 * 2 ^ 52 + (if m = 0 then 0 else m * 2 ^ 29 % 2 ^ 51 + 2 ^ 51)
  else if e = 0 then
    if m = 0 then s * 2 ^ 63
    else s * 2 ^ 63 + (Nat.log2 m + 874) * 2 ^ 52 + (m - 2 ^ Nat.log2 m) * 2 ^ (52 - Nat.log2 m)
  else s * 2 ^ 63 + (e + 896) * 2 ^ 52 + m * 2 ^ 29

/-- A sample environment: the validator accepts a message when its vertices
have shape `[N, 3]`. -/
def sampleEnv : Env where
  CheckMessage d errstr :=
    if d.vertices.CheckShape [-1, 3] then (true, errstr)
    else (false, errstr ++ "invalid vertices array")
  ErrorProcessingMessage_str := "error while processing message"
  widen := ieeeWiden

/-- A sample request header. -/
def sampleRequest : Request :=
  { msg_id := "set_mesh_data" }

/-- A faces array with no rows. -/
def noFaces : Array :=
  { type := TypeStr.int32_t, shape := [0], data := [] }

/-- Two float vertices `(1, 2, 3)` and `(4, 5, 6)`. -/
def twoPoints : Array :=
  { type := TypeStr.float
    shape := [2, 3]
    data := [0, 0, 128, 63, 0, 0, 0, 64, 0, 0, 64, 64, 0, 0, 128, 64, 0, 0, 160, 64, 0, 0, 192, 64] }

/-- One double row `(0, 0, 1)`. -/
def oneDoubleRow : Array :=
  { type := TypeStr.double
    shape := [1, 3]
    data := [0, 0, 0, 0, 0, 0, 0, 0, 0, 0, 0, 0, 0, 0, 0, 0, 0, 0, 0, 0, 0, 0, 240, 63] }

/-- A message the sample validator rejects: vertices of rank 1. -/
def rejectedMsg : SetMeshData :=
  { path := "bad", time := 0, layer := ""
    data :=
      { vertices := { type := TypeStr.float, shape := [2], data := [0, 0, 128, 63, 0, 0, 0, 64] }
        vertex_attributes := []
        faces := noFaces } }

/-- A point-cloud message whose normals are of type int32. -/
def cloudMsg : SetMeshData :=
  { path := "cloud", time := 0, layer := "l"
    data :=
      { vertices := twoPoints
        vertex_attributes :=
          [("normals",
            { type := TypeStr.int32_t, shape := [1, 3], data := [1, 0, 0, 0, 0, 0, 0, 0, 0, 0, 0, 0] })]
        faces := noFaces } }

/-- A mesh message: two vertices, one int32 triangle `(0, 1, 1)`, double
normals of one row, colors of a wrong shape. -/
def meshMsg : SetMeshData :=
  { path := "mesh", time := 3, layer := ""
    data :=
      { vertices := twoPoints
        vertex_attributes :=
          [("normals", oneDoubleRow),
           ("colors", { type := TypeStr.float, shape := [2], data := [0, 0, 128, 63, 0, 0, 0, 64] })]
        faces :=
          { type := TypeStr.int32_t, shape := [1, 3], data := [0, 0, 0, 0, 1, 0, 0, 0, 1, 0, 0, 0] } } }

/-- A point-cloud message with two vertices and a single normal. -/
def mismatchMsg : SetMeshData :=
  { path := "cloud", time := 1, layer := ""
    data :=
      { vertices := twoPoints
        vertex_attributes :=
          [("normals",
            { type := TypeStr.float, shape := [1, 3], data := [0, 0, 0, 0, 0, 0, 0, 0, 0, 0, 128, 63] })]
        faces := noFaces } }

/-- A point-cloud message whose vertices are of type int32, with normals and
colors of a valid type and shape. -/
def intVerticesMsg : SetMeshData :=
  { path := "cloud", time := 2, layer := ""
    data :=
      { vertices :=
          { type := TypeStr.int32_t, shape := [1, 3], data := [1, 0, 0, 0, 2, 0, 0, 0, 3, 0, 0, 0] }
        vertex_attributes := [("normals", oneDoubleRow), ("colors", oneDoubleRow)]
        faces := noFaces } }

/-- The message `meshMsg` without its normals. -/
def meshMsgNoNormals : SetMeshData :=
  { meshMsg with
    data :=
      { meshMsg.data with
        vertex_attributes :=
          [("colors", { type := TypeStr.float, shape := [2], data := [0, 0, 128, 63, 0, 0, 0, 64] })] } }

/-- The message `meshMsg` with faces of rank 1: non-empty, of a wrong shape. -/
def flatFacesMsg : SetMeshData :=
  { meshMsg with
    data :=
      { meshMsg.data with
        faces := { type := TypeStr.int32_t, shape := [2], data := [0, 0, 0, 0, 1, 0, 0, 0] } } }

/-- The message `meshMsg` with one int64 triangle `(2^32 + 5, -1, 7)`. -/
def int64FacesMsg : SetMeshData :=
  { meshMsg with
    data :=
      { meshMsg.data with
        faces :=
          { type := TypeStr.int64_t
            shape := [1, 3]
            data :=
              [5, 0, 0, 0, 1, 0, 0, 0, 255, 255, 255, 255, 255, 255, 255, 255,
               7, 0, 0, 0, 0, 0, 0, 0] } } }

/-- A point-cloud message whose float vertices have shape `[2]`: the buffer
holds the two elements the shape announces, the loop reads six. -/
def flatVerticesMsg : SetMeshData :=
  { path := "flat", time := 0, layer := ""
    data :=
      { vertices := { type := TypeStr.float, shape := [2], data := [0, 0, 128, 63, 0, 0, 0, 64] }
        vertex_attributes := []
        faces := noFaces } }

/-! ## The decoding loops read consecutive triples -/

theorem copyRows_spec {α β : Type} (rd : Nat → Option α) (mk : α → α → α → β) :
    ∀ (todo i ptr : Nat) (dst : List β),
      (∀ k, k < 3 * todo → (rd (ptr + k)).isSome = true) → i + todo ≤ dst.length →
      ∃ out, copyRows rd mk todo i ptr dst = some out ∧ out.length = dst.length ∧
        (∀ j, j < i → out[j]? = dst[j]?) ∧
        (∀ j, j < todo → ∃ x y z, rd (ptr + 3 * j) = some x ∧ rd (ptr + 3 * j + 1) = some y ∧
            rd (ptr + 3 * j + 2) = some z ∧ out[i + j]? = some (mk x y z))
  | 0, i, ptr, dst, _, _ =>
    ⟨dst, rfl, rfl, fun _ _ => rfl, fun j hj => absurd hj (Nat.not_lt_zero j)⟩
  | todo + 1, i, ptr, dst, hrd, hlen => by
    obtain ⟨x, hx⟩ := Option.isSome_iff_exists.mp (hrd 0 (by omega))
    obtain ⟨y, hy⟩ := Option.isSome_iff_exists.mp (hrd 1 (by omega))
    obtain ⟨z, hz⟩ := Option.isSome_iff_exists.mp (hrd 2 (by omega))
    rw [Nat.add_zero] at hx
    obtain ⟨out, ho, hl, hlt, hrows⟩ :=
      copyRows_spec rd mk todo (i + 1) (ptr + 3) (dst.set i (mk x y z))
        (fun k hk => by
          have h := hrd (3 + k) (by omega)
          rwa [show ptr + (3 + k) = ptr + 3 + k by omega] at h)
        (by rw [List.length_set]; omega)
    refine ⟨out, ?_, ?_, ?_, ?_⟩
    · simp only [copyRows, hx, hy, hz, ho]
    · rw [hl, List.length_set]
    · intro j hj
      rw [hlt j (by omega), List.getElem?_set_ne (by omega)]
    · intro j hj
      rcases Nat.eq_zero_or_pos j with h0 | hpos
      · subst h0
        refine ⟨x, y, z, by simpa using hx, by simpa using hy, by simpa using hz, ?_⟩
        rw [Nat.add_zero, hlt i (by omega), List.getElem?_set_eq_of_lt]
        omega
      · obtain ⟨x1, y1, z1, h1, h2, h3, h4⟩ := hrows (j - 1) (by omega)
        refine ⟨x1, y1, z1, ?_, ?_, ?_, ?_⟩
        · rw [← h1]; congr 1; omega
        · rw [← h2]; congr 1; omega
        · rw [← h3]; congr 1; omega
        · rw [← h4]; congr 1; omega

theorem copyRows_fresh {α β : Type} (rd : Nat → Option α) (mk : α → α → α → β) (d : β) (n : Nat)
    (h : ∀ k, k < 3 * n → (rd k).isSome = true) :
    ∃ rows, copyRows rd mk n 0 0 (List.replicate n d) = some rows ∧ Triples rd mk n rows := by
  obtain ⟨out, ho, hl, -, hrows⟩ :=
    copyRows_spec rd mk n 0 0 (List.replicate n d)
      (fun k hk => by simpa using h k hk) (by simp)
  refine ⟨out, ho, by simpa using hl, ?_⟩
  intro i hi
  obtain ⟨x, y, z, h1, h2, h3, h4⟩ := hrows i hi
  exact ⟨x, y, z, by simpa using h1, by simpa using h2, by simpa using h3, by simpa using h4⟩

theorem bytesAt_isSome (a : Array) (size k : Nat) (h : size * k + size ≤ a.data.length) :
    (a.bytesAt size k).isSome = true := by
  simp [Array.bytesAt, h]

theorem rows_in_bounds (a : Array) (N : Int) (hs : a.shape = [N, 3]) (hinv : a.Invariant)
    (hpos : 0 < a.type.itemsize) :
    0 ≤ N ∧ ∀ k, k < 3 * N.toNat →
      a.type.itemsize * k + a.type.itemsize ≤ a.data.length := by
  unfold Array.Invariant at hinv
  rw [hs] at hinv
  simp only [List.prod_cons, List.prod_nil, mul_one] at hinv
  have hsz : (0 : Int) < (a.type.itemsize : Int) := by exact_mod_cast hpos
  have hN : 0 ≤ N := by
    by_contra hneg
    have h1 : N * 3 * (a.type.itemsize : Int) < 0 := by
      have : N * 3 < 0 := by omega
      exact mul_neg_of_neg_of_pos this hsz
    have h2 : (0 : Int) ≤ (a.data.length : Int) := Int.ofNat_nonneg _
    omega
  refine ⟨hN, ?_⟩
  intro k hk
  obtain ⟨n, rfl⟩ := Int.eq_ofNat_of_zero_le hN
  simp only [Int.toNat_ofNat] at hk
  have hlen : a.data.length = n * 3 * a.type.itemsize := by exact_mod_cast hinv
  rw [hlen]
  calc a.type.itemsize * k + a.type.itemsize = (k + 1) * a.type.itemsize := by ring
    _ ≤ (n * 3) * a.type.itemsize := Nat.mul_le_mul_right _ (by omega)

theorem CheckShape_rows (a : Array) (h : a.CheckShape [-1, 3] = true) :
    ∃ N, a.shape = [N, 3] := by
  unfold Array.CheckShape at h
  rcases hs : a.shape with _ | ⟨N, _ | ⟨M, _ | ⟨K, rest⟩⟩⟩ <;> rw [hs] at h <;> simp at h
  exact ⟨N, by rw [h]⟩

theorem CheckShape_of_rows (a : Array) (N : Int) (h : a.shape = [N, 3]) :
    a.CheckShape [-1, 3] = true := by
  simp [Array.CheckShape, h]

theorem CheckType_double (a : Array) :
    a.CheckType [TypeStr.float, TypeStr.double] = true ↔
      a.type = TypeStr.float ∨ a.type = TypeStr.double := by
  simp [Array.CheckType]

theorem CheckType_int (a : Array) :
    a.CheckType [TypeStr.int32_t, TypeStr.int64_t] = true ↔
      a.type = TypeStr.int32_t ∨ a.type = TypeStr.int64_t := by
  simp [Array.CheckType]

theorem readVector3d_spec (env : Env) (a : Array) (N : Int)
    (ht : a.CheckType [TypeStr.float, TypeStr.double] = true) (hs : a.shape = [N, 3])
    (hinv : a.Invariant) :
    0 ≤ N ∧ ∃ rows, readVector3d env a [] = some rows ∧
      Triples (a.doubleAt env) Vector3d.mk N.toNat rows := by
  rcases (CheckType_double a).mp ht with hty | hty
  · obtain ⟨hN, hb⟩ := rows_in_bounds a N hs hinv (by rw [hty]; decide)
    refine ⟨hN, ?_⟩
    rw [hty] at hb
    obtain ⟨rows, hr, htr⟩ :=
      copyRows_fresh (fun k => (a.Ptr_float k).map env.widen) Vector3d.mk (Vector3d.mk 0 0 0)
        N.toNat (fun k hk => by
          simpa [Array.Ptr_float] using bytesAt_isSome a 4 k (hb k hk))
    refine ⟨rows, ?_, ?_⟩
    · simp [readVector3d, hs, resize, hty, not_lt.mpr hN, hr]
    · have hfun : a.doubleAt env = fun k => (a.Ptr_float k).map env.widen := by
        funext k; simp [Array.doubleAt, hty]
      rw [hfun]; exact htr
  · obtain ⟨hN, hb⟩ := rows_in_bounds a N hs hinv (by rw [hty]; decide)
    refine ⟨hN, ?_⟩
    rw [hty] at hb
    obtain ⟨rows, hr, htr⟩ :=
      copyRows_fresh a.Ptr_double Vector3d.mk (Vector3d.mk 0 0 0)
        N.toNat (fun k hk => by
          simpa [Array.Ptr_double] using bytesAt_isSome a 8 k (hb k hk))
    refine ⟨rows, ?_, ?_⟩
    · simp [readVector3d, hs, resize, hty, not_lt.mpr hN, hr]
    · have hfun : a.doubleAt env = a.Ptr_double := by
        funext k; simp [Array.doubleAt, hty]
      rw [hfun]; exact htr

theorem readVector3i_spec (a : Array) (N : Int)
    (ht : a.CheckType [TypeStr.int32_t, TypeStr.int64_t] = true) (hs : a.shape = [N, 3])
    (hinv : a.Invariant) :
    0 ≤ N ∧ ∃ rows, readVector3i a [] = some rows ∧
      Triples a.intAt Vector3i.mk N.toNat rows := by
  rcases (CheckType_int a).mp ht with hty | hty
  · obtain ⟨hN, hb⟩ := rows_in_bounds a N hs hinv (by rw [hty]; decide)
    refine ⟨hN, ?_⟩
    rw [hty] at hb
    obtain ⟨rows, hr, htr⟩ :=
      copyRows_fresh a.Ptr_int32_t Vector3i.mk (Vector3i.mk 0 0 0)
        N.toNat (fun k hk => by
          simpa [Array.Ptr_int32_t] using bytesAt_isSome a 4 k (hb k hk))
    refine ⟨rows, ?_, ?_⟩
    · simp [readVector3i, hs, resize, hty, not_lt.mpr hN, hr]
    · have hfun : a.intAt = a.Ptr_int32_t := by
        funext k; simp [Array.intAt, hty]
      rw [hfun]; exact htr
  · obtain ⟨hN, hb⟩ := rows_in_bounds a N hs hinv (by rw [hty]; decide)
    refine ⟨hN, ?_⟩
    rw [hty] at hb
    obtain ⟨rows, hr, htr⟩ :=
      copyRows_fresh (fun k => (a.Ptr_int64_t k).map narrow) Vector3i.mk (Vector3i.mk 0 0 0)
        N.toNat (fun k hk => by
          simpa [Array.Ptr_int64_t] using bytesAt_isSome a 8 k (hb k hk))
    refine ⟨rows, ?_, ?_⟩
    · simp [readVector3i, hs, resize, hty, not_lt.mpr hN, hr]
    · have hfun : a.intAt = fun k => (a.Ptr_int64_t k).map narrow := by
        funext k; simp [Array.intAt, hty]
      rw [hfun]; exact htr

theorem lookup_mem {α : Type} (l : List (String × α)) (name : String) (v : α)
    (h : l.lookup name = some v) : (name, v) ∈ l := by
  induction l with
  | nil => simp at h
  | cons p l ih =>
    obtain ⟨k, w⟩ := p
    by_cases hk : name = k
    · subst hk
      simp [List.lookup] at h
      simp [h]
    · have hne : (name == k) = false := by simpa using hk
      simp [List.lookup, hne] at h
      exact List.mem_cons_of_mem _ (ih h)

theorem readAttribute_absent (env : Env) (attrs : List (String × Array)) (name : String)
    (h : attrs.lookup name = none) : readAttribute env attrs name [] = some [] := by
  simp [readAttribute, h]

theorem readAttribute_rejected (env : Env) (attrs : List (String × Array)) (name : String)
    (arr : Array) (h : attrs.lookup name = some arr)
    (hbad : arr.CheckType [TypeStr.float, TypeStr.double] = false ∨
      arr.CheckShape [-1, 3] = false) :
    readAttribute env attrs name [] = some [] := by
  rcases hbad with hb | hb
  · simp [readAttribute, h, hb]
  · by_cases ht : arr.CheckType [TypeStr.float, TypeStr.double] = true
    · simp [readAttribute, h, hb, ht]
    · simp [readAttribute, h, ht]

theorem readAttribute_decoded (env : Env) (attrs : List (String × Array)) (name : String)
    (arr : Array) (K : Int) (h : attrs.lookup name = some arr)
    (ht : arr.CheckType [TypeStr.float, TypeStr.double] = true)
    (hs : arr.shape = [K, 3]) (hinv : arr.Invariant) :
    0 ≤ K ∧ ∃ rows, readAttribute env attrs name [] = some rows ∧
      Triples (arr.doubleAt env) Vector3d.mk K.toNat rows := by
  obtain ⟨hK, rows, hr, htr⟩ := readVector3d_spec env arr K ht hs hinv
  refine ⟨hK, rows, ?_, htr⟩
  simp [readAttribute, h, ht, CheckShape_of_rows arr K hs, hr]

theorem readAttribute_total (env : Env) (attrs : List (String × Array)) (name : String)
    (hinv : ∀ p ∈ attrs, p.2.Invariant) :
    ∃ rows, readAttribute env attrs name [] = some rows := by
  rcases h : attrs.lookup name with _ | arr
  · exact ⟨[], readAttribute_absent env attrs name h⟩
  · by_cases ht : arr.CheckType [TypeStr.float, TypeStr.double] = true
    · by_cases hs : arr.CheckShape [-1, 3] = true
      · obtain ⟨K, hK⟩ := CheckShape_rows arr hs
        obtain ⟨-, rows, hr, -⟩ :=
          readAttribute_decoded env attrs name arr K h ht hK (hinv _ (lookup_mem attrs name arr h))
        exact ⟨rows, hr⟩
      · exact ⟨[], readAttribute_rejected env attrs name arr h (Or.inr (by simpa using hs))⟩
    · exact ⟨[], readAttribute_rejected env attrs name arr h (Or.inl (by simpa using ht))⟩

theorem ProcessMessage_rejected (env : Env) (req : Request) (msg : SetMeshData)
    (h : (env.CheckMessage msg.data ":").1 = false) :
    ProcessMessage env req msg =
      some
        { reply :=
            { code := StatusCode.ErrorProcessingMessage
              str := env.ErrorProcessingMessage_str ++ (env.CheckMessage msg.data ":").2 }
          posted := [] } := by
  simp [ProcessMessage, h]

theorem ProcessMessage_mesh (env : Env) (req : Request) (msg : SetMeshData)
    (hg : (env.CheckMessage msg.data ":").1 = true) (hf : msg.data.faces.CheckNonEmpty = true)
    (v vn vc : List Vector3d) (t : List Vector3i)
    (hv : (if msg.data.vertices.CheckType [TypeStr.float, TypeStr.double] = true then
        readVector3d env msg.data.vertices [] else some []) = some v)
    (hvn : readAttribute env msg.data.vertex_attributes "normals" [] = some vn)
    (hvc : readAttribute env msg.data.vertex_attributes "colors" [] = some vc)
    (ht : (if msg.data.faces.CheckShape [-1, 3] = true ∧
          msg.data.faces.CheckType [TypeStr.int32_t, TypeStr.int64_t] = true then
        readVector3i msg.data.faces [] else some []) = some t) :
    ProcessMessage env req msg =
      some
        { reply := Status.OK
          posted :=
            SetGeometry
              (some (Geometry3D.TriangleMesh
                { vertices_ := v, vertex_normals_ := vn, vertex_colors_ := vc, triangles_ := t }))
              msg.path msg.time msg.layer } := by
  by_cases h1 : msg.data.vertices.CheckType [TypeStr.float, TypeStr.double] = true <;>
    by_cases h2 : msg.data.faces.CheckShape [-1, 3] = true <;>
    by_cases h3 : msg.data.faces.CheckType [TypeStr.int32_t, TypeStr.int64_t] = true <;>
    simp [h1, h2, h3] at hv ht <;>
    simp [ProcessMessage, hg, hf, h1, h2, h3, hv, hvn, hvc, ht]

theorem ProcessMessage_cloud_skipped (env : Env) (req : Request) (msg : SetMeshData)
    (hg : (env.CheckMessage msg.data ":").1 = true) (hf : msg.data.faces.CheckNonEmpty = false)
    (hty : msg.data.vertices.CheckType [TypeStr.float, TypeStr.double] = false) :
    ProcessMessage env req msg =
      some
        { reply := Status.OK
          posted :=
            SetGeometry (some (Geometry3D.PointCloud {})) msg.path msg.time msg.layer } := by
  simp [ProcessMessage, hg, hf, hty]

theorem ProcessMessage_cloud (env : Env) (req : Request) (msg : SetMeshData)
    (hg : (env.CheckMessage msg.data ":").1 = true) (hf : msg.data.faces.CheckNonEmpty = false)
    (hty : msg.data.vertices.CheckType [TypeStr.float, TypeStr.double] = true)
    (p n c : List Vector3d)
    (hp : readVector3d env msg.data.vertices [] = some p)
    (hn : readAttribute env msg.data.vertex_attributes "normals" [] = some n)
    (hc : readAttribute env msg.data.vertex_attributes "colors" [] = some c) :
    ProcessMessage env req msg =
      some
        { reply := Status.OK
          posted :=
            SetGeometry
              (some (Geometry3D.PointCloud { points_ := p, normals_ := n, colors_ := c }))
              msg.path msg.time msg.layer } := by
  simp [ProcessMessage, hg, hf, hty, hp, hn, hc]

/-! ## Decimal numerals -/

theorem digitChar_val (k : Nat) (hk : k < 10) : (Nat.digitChar k).toNat - 48 = k := by
  interval_cases k <;> rfl

theorem digitChar_ne_minus (k : Nat) (hk : k < 10) : Nat.digitChar k ≠ '-' := by
  interval_cases k <;> decide

theorem toDigitsCore_value : ∀ (fuel n : Nat) (acc : List Char), n < fuel →
    (Nat.toDigitsCore 10 fuel n acc).foldl (fun acc c => 10 * acc + (c.toNat - 48)) 0 =
      acc.foldl (fun acc c => 10 * acc + (c.toNat - 48)) n
  | 0, n, acc, h => absurd h (Nat.not_lt_zero n)
  | fuel + 1, n, acc, h => by
    unfold Nat.toDigitsCore
    by_cases h0 : n / 10 = 0
    · have hn : n < 10 := by omega
      simp only [h0, if_true, List.foldl_cons]
      rw [digitChar_val _ (Nat.mod_lt _ (by decide))]
      congr 1; omega
    · simp only [h0, if_false]
      rw [toDigitsCore_value fuel (n / 10) _ (by omega), List.foldl_cons,
        digitChar_val _ (Nat.mod_lt _ (by decide))]
      congr 1; omega

theorem toDigitsCore_head : ∀ (fuel n : Nat) (acc : List Char),
    ∃ k, k < 10 ∧ ∃ rest, Nat.toDigitsCore 10 (fuel + 1) n acc = Nat.digitChar k :: rest
  | 0, n, acc => by
    unfold Nat.toDigitsCore
    by_cases h0 : n / 10 = 0
    · exact ⟨n % 10, Nat.mod_lt _ (by decide), acc, by simp [h0]⟩
    · exact ⟨n % 10, Nat.mod_lt _ (by decide), acc, by simp [h0, Nat.toDigitsCore]⟩
  | fuel + 1, n, acc => by
    unfold Nat.toDigitsCore
    by_cases h0 : n / 10 = 0
    · exact ⟨n % 10, Nat.mod_lt _ (by decide), acc, by simp [h0]⟩
    · simp only [h0, if_false]
      exact toDigitsCore_head fuel (n / 10) _

theorem repr_data_value (n : Nat) : decimalValue (Nat.repr n).data = n := by
  simp only [Nat.repr, Nat.toDigits, List.asString, decimalValue]
  rw [toDigitsCore_value (n + 1) n [] (by omega)]
  rfl

theorem repr_data_head (n : Nat) :
    ∃ k, k < 10 ∧ ∃ rest, (Nat.repr n).data = Nat.digitChar k :: rest := by
  simp only [Nat.repr, Nat.toDigits, List.asString]
  exact toDigitsCore_head n n []

theorem toString_int_data_inj (a b : Int) (h : (toString a).data = (toString b).data) : a = b := by
  rcases a with m | m <;> rcases b with n | n
  · have h1 : (Nat.repr m).data = (Nat.repr n).data := h
    have := congrArg decimalValue h1
    rw [repr_data_value, repr_data_value] at this
    rw [this]
  · exfalso
    have h1 : (Nat.repr m).data = '-' :: (Nat.repr (n + 1)).data := h
    obtain ⟨k, hk, rest, hr⟩ := repr_data_head m
    rw [hr] at h1
    exact digitChar_ne_minus k hk (List.cons.inj h1).1
  · exfalso
    have h1 : '-' :: (Nat.repr (m + 1)).data = (Nat.repr n).data := h
    obtain ⟨k, hk, rest, hr⟩ := repr_data_head n
    rw [hr] at h1
    exact digitChar_ne_minus k hk (List.cons.inj h1).1.symm
  · have h1 : '-' :: (Nat.repr (m + 1)).data = '-' :: (Nat.repr (n + 1)).data := h
    have h2 := congrArg decimalValue (List.cons.inj h1).2
    rw [repr_data_value, repr_data_value] at h2
    have : m = n := by omega
    rw [this]

/-! ## Every accepted, well-formed message is decoded -/

theorem vertices_total (env : Env) (a : Array) (hinv : a.Invariant)
    (hvs : a.CheckType [TypeStr.float, TypeStr.double] = true → a.CheckShape [-1, 3] = true) :
    ∃ v, (if a.CheckType [TypeStr.float, TypeStr.double] = true then
        readVector3d env a [] else some []) = some v := by
  by_cases ht : a.CheckType [TypeStr.float, TypeStr.double] = true
  · obtain ⟨N, hN⟩ := CheckShape_rows a (hvs ht)
    obtain ⟨-, rows, hr, -⟩ := readVector3d_spec env a N ht hN hinv
    exact ⟨rows, by simp [ht, hr]⟩
  · exact ⟨[], by simp [ht]⟩

theorem faces_total (a : Array) (hinv : a.Invariant) :
    ∃ t, (if a.CheckShape [-1, 3] = true ∧
          a.CheckType [TypeStr.int32_t, TypeStr.int64_t] = true then
        readVector3i a [] else some []) = some t := by
  by_cases h : a.CheckShape [-1, 3] = true ∧
      a.CheckType [TypeStr.int32_t, TypeStr.int64_t] = true
  · obtain ⟨N, hN⟩ := CheckShape_rows a h.1
    obtain ⟨-, rows, hr, -⟩ := readVector3i_spec a N h.2 hN hinv
    exact ⟨rows, by rw [if_pos h, hr]⟩
  · exact ⟨[], by rw [if_neg h]⟩

theorem ProcessMessage_total (env : Env) (req : Request) (msg : SetMeshData)
    (hg : (env.CheckMessage msg.data ":").1 = true) (hinv : msg.data.Invariant)
    (hvs : msg.data.vertices.CheckType [TypeStr.float, TypeStr.double] = true →
      msg.data.vertices.CheckShape [-1, 3] = true) :
    ∃ g, ProcessMessage env req msg =
        some
          { reply := Status.OK
            posted := SetGeometry (some g) msg.path msg.time msg.layer } ∧
      g.GetGeometryType =
        if msg.data.faces.CheckNonEmpty = true then GeometryType.TriangleMesh
        else GeometryType.PointCloud := by
  obtain ⟨hv, hfa, hat⟩ := hinv
  obtain ⟨vn, hvn⟩ := readAttribute_total env msg.data.vertex_attributes "normals" hat
  obtain ⟨vc, hvc⟩ := readAttribute_total env msg.data.vertex_attributes "colors" hat
  obtain ⟨v, hv1⟩ := vertices_total env msg.data.vertices hv hvs
  by_cases hf : msg.data.faces.CheckNonEmpty = true
  · obtain ⟨t, ht⟩ := faces_total msg.data.faces hfa
    exact ⟨_, ProcessMessage_mesh env req msg hg hf v vn vc t hv1 hvn hvc ht, by
      simp [hf, Geometry3D.GetGeometryType]⟩
  · have hf0 : msg.data.faces.CheckNonEmpty = false := by simpa using hf
    by_cases hty : msg.data.vertices.CheckType [TypeStr.float, TypeStr.double] = true
    · rw [if_pos hty] at hv1
      exact ⟨_, ProcessMessage_cloud env req msg hg hf0 hty v vn vc hv1 hvn hvc, by
        simp [hf0, Geometry3D.GetGeometryType]⟩
    · exact ⟨_, ProcessMessage_cloud_skipped env req msg hg hf0 (by simpa using hty), by
        simp [hf0, Geometry3D.GetGeometryType]⟩

/-! ## What each part of the geometry holds -/

theorem readAttribute_char (env : Env) (attrs : List (String × Array)) (name : String)
    (rows : List Vector3d) (hinv : ∀ p ∈ attrs, p.2.Invariant)
    (h : readAttribute env attrs name [] = some rows) :
    (attrs.lookup name = none → rows = []) ∧
    (∀ arr, attrs.lookup name = some arr →
      arr.CheckType [TypeStr.float, TypeStr.double] = false ∨ arr.CheckShape [-1, 3] = false →
      rows = []) ∧
    (∀ arr (K : Int), attrs.lookup name = some arr →
      arr.CheckType [TypeStr.float, TypeStr.double] = true → arr.shape = [K, 3] →
      (rows.length : Int) = K ∧
        ∀ i, i < rows.length → ∃ x y z,
          arr.doubleAt env (3 * i) = some x ∧ arr.doubleAt env (3 * i + 1) = some y ∧
          arr.doubleAt env (3 * i + 2) = some z ∧ rows[i]? = some (Vector3d.mk x y z)) := by
  refine ⟨?_, ?_, ?_⟩
  · intro hl
    rw [readAttribute_absent env attrs name hl] at h
    exact (Option.some.inj h).symm
  · intro arr hl hbad
    rw [readAttribute_rejected env attrs name arr hl hbad] at h
    exact (Option.some.inj h).symm
  · intro arr K hl ht hs
    obtain ⟨hK, rows1, hr, hlen, htr⟩ :=
      readAttribute_decoded env attrs name arr K hl ht hs (hinv _ (lookup_mem attrs name arr hl))
    rw [hr] at h
    have hrows : rows1 = rows := Option.some.inj h
    subst hrows
    refine ⟨by rw [hlen]; exact Int.toNat_of_nonneg hK, ?_⟩
    intro i hi
    exact htr i (by rw [← hlen]; exact hi)

theorem readAttribute_nonempty (env : Env) (attrs : List (String × Array)) (name : String)
    (rows : List Vector3d) (hinv : ∀ p ∈ attrs, p.2.Invariant)
    (h : readAttribute env attrs name [] = some rows) (hne : rows ≠ []) :
    ∃ arr, attrs.lookup name = some arr ∧ arr.shape = [(rows.length : Int), 3] := by
  obtain ⟨h1, h2, h3⟩ := readAttribute_char env attrs name rows hinv h
  rcases hl : attrs.lookup name with _ | arr
  · exact absurd (h1 hl) hne
  · by_cases ht : arr.CheckType [TypeStr.float, TypeStr.double] = true
    · by_cases hs : arr.CheckShape [-1, 3] = true
      · obtain ⟨K, hK⟩ := CheckShape_rows arr hs
        obtain ⟨hlen, -⟩ := h3 arr K hl ht hK
        exact ⟨arr, rfl, by rw [hK, hlen]⟩
      · exact absurd (h2 arr hl (Or.inr (by simpa using hs))) hne
    · exact absurd (h2 arr hl (Or.inl (by simpa using ht))) hne

theorem ProcessMessage_mesh_total (env : Env) (req : Request) (msg : SetMeshData)
    (hg : (env.CheckMessage msg.data ":").1 = true) (hf : msg.data.faces.CheckNonEmpty = true)
    (hinv : msg.data.Invariant)
    (hvs : msg.data.vertices.CheckType [TypeStr.float, TypeStr.double] = true →
      msg.data.vertices.CheckShape [-1, 3] = true) :
    ∃ v vn vc t,
      (if msg.data.vertices.CheckType [TypeStr.float, TypeStr.double] = true then
        readVector3d env msg.data.vertices [] else some []) = some v ∧
      readAttribute env msg.data.vertex_attributes "normals" [] = some vn ∧
      readAttribute env msg.data.vertex_attributes "colors" [] = some vc ∧
      (if msg.data.faces.CheckShape [-1, 3] = true ∧
          msg.data.faces.CheckType [TypeStr.int32_t, TypeStr.int64_t] = true then
        readVector3i msg.data.faces [] else some []) = some t ∧
      ProcessMessage env req msg =
        some
          { reply := Status.OK
            posted :=
              SetGeometry
                (some (Geometry3D.TriangleMesh
                  { vertices_ := v, vertex_normals_ := vn, vertex_colors_ := vc,
                    triangles_ := t }))
                msg.path msg.time msg.layer } := by
  obtain ⟨hv, hfa, hat⟩ := hinv
  obtain ⟨vn, hvn⟩ := readAttribute_total env msg.data.vertex_attributes "normals" hat
  obtain ⟨vc, hvc⟩ := readAttribute_total env msg.data.vertex_attributes "colors" hat
  obtain ⟨v, hv1⟩ := vertices_total env msg.data.vertices hv hvs
  obtain ⟨t, ht⟩ := faces_total msg.data.faces hfa
  exact ⟨v, vn, vc, t, hv1, hvn, hvc, ht,
    ProcessMessage_mesh env req msg hg hf v vn vc t hv1 hvn hvc ht⟩

theorem ProcessMessage_cloud_total (env : Env) (req : Request) (msg : SetMeshData)
    (hg : (env.CheckMessage msg.data ":").1 = true) (hf : msg.data.faces.CheckNonEmpty = false)
    (hinv : msg.data.Invariant)
    (hty : msg.data.vertices.CheckType [TypeStr.float, TypeStr.double] = true)
    (hvs : msg.data.vertices.CheckShape [-1, 3] = true) :
    ∃ p n c,
      readVector3d env msg.data.vertices [] = some p ∧
      readAttribute env msg.data.vertex_attributes "normals" [] = some n ∧
      readAttribute env msg.data.vertex_attributes "colors" [] = some c ∧
      ProcessMessage env req msg =
        some
          { reply := Status.OK
            posted :=
              SetGeometry
                (some (Geometry3D.PointCloud { points_ := p, normals_ := n, colors_ := c }))
                msg.path msg.time msg.layer } := by
  obtain ⟨hv, -, hat⟩ := hinv
  obtain ⟨n, hn⟩ := readAttribute_total env msg.data.vertex_attributes "normals" hat
  obtain ⟨c, hc⟩ := readAttribute_total env msg.data.vertex_attributes "colors" hat
  obtain ⟨p, hp⟩ := vertices_total env msg.data.vertices hv (fun _ => hvs)
  rw [if_pos hty] at hp
  exact ⟨p, n, c, hp, hn, hc, ProcessMessage_cloud env req msg hg hf hty p n c hp hn hc⟩

theorem readVector3d_length (env : Env) (a : Array) (rows : List Vector3d)
    (ht : a.CheckType [TypeStr.float, TypeStr.double] = true)
    (hs : a.CheckShape [-1, 3] = true) (hinv : a.Invariant)
    (h : readVector3d env a [] = some rows) : a.shape.head? = some (rows.length : Int) := by
  obtain ⟨N, hN⟩ := CheckShape_rows a hs
  obtain ⟨hpos, rows1, hr, hlen, -⟩ := readVector3d_spec env a N ht hN hinv
  rw [hr] at h
  have hrows : rows1 = rows := Option.some.inj h
  subst hrows
  rw [hN, hlen, Int.toNat_of_nonneg hpos]
  rfl

theorem attribute_length (env : Env) (attrs : List (String × Array)) (name : String)
    (a : Array) (rows pos : List Vector3d) (hinv : ∀ p ∈ attrs, p.2.Invariant)
    (h : readAttribute env attrs name [] = some rows) (hne : rows ≠ [])
    (hpos : a.shape.head? = some (pos.length : Int)) :
    ∃ arr, attrs.lookup name = some arr ∧ arr.shape.head? = some (rows.length : Int) ∧
      (arr.shape.head? = a.shape.head? → rows.length = pos.length) := by
  obtain ⟨arr, hl, hsh⟩ := readAttribute_nonempty env attrs name rows hinv h hne
  refine ⟨arr, hl, by rw [hsh]; rfl, ?_⟩
  intro heq
  rw [hsh, hpos] at heq
  have h1 : (rows.length : Int) = (pos.length : Int) := Option.some.inj heq
  exact_mod_cast h1

theorem key_data (c : Closure) :
    c.key.data = "geom_".data ++ c.path.data ++ c.layer.data ++ (toString c.time).data := by
  simp [Closure.key, String.data_append]

theorem string_eq_of_data (s t : String) (h : s.data = t.data) : s = t := by
  cases s; cases t; simp_all

/-! ## Narrowing and the indices the loops read -/

theorem narrow_spec (s : Int) :
    -2 ^ 31 ≤ narrow s ∧ narrow s < 2 ^ 31 ∧ (s - narrow s) % 2 ^ 32 = 0 ∧
      (narrow s = s ↔ -2 ^ 31 ≤ s ∧ s < 2 ^ 31) := by
  unfold narrow toSigned
  have h1 := Int.emod_nonneg s (show (2 : Int) ^ 32 ≠ 0 by norm_num)
  have h2 := Int.emod_lt_of_pos s (show (0 : Int) < 2 ^ 32 by norm_num)
  norm_num at h1 h2 ⊢
  split_ifs <;> omega

theorem copyRows_isSome_iff {α β : Type} (rd : Nat → Option α) (mk : α → α → α → β) :
    ∀ (todo i ptr : Nat) (dst : List β),
      (copyRows rd mk todo i ptr dst).isSome = true ↔
        ∀ k, k < 3 * todo → (rd (ptr + k)).isSome = true
  | 0, i, ptr, dst => by simp [copyRows]
  | todo + 1, i, ptr, dst => by
    constructor
    · intro h k hk
      unfold copyRows at h
      rcases h0 : rd ptr with _ | x
      · simp [h0] at h
      rcases h1 : rd (ptr + 1) with _ | y
      · simp [h0, h1] at h
      rcases h2 : rd (ptr + 2) with _ | z
      · simp [h0, h1, h2] at h
      simp only [h0, h1, h2] at h
      have ih := (copyRows_isSome_iff rd mk todo (i + 1) (ptr + 3) _).mp h
      rcases Nat.lt_or_ge k 3 with hk3 | hk3
      · interval_cases k
        · simp [h0]
        · simp [h1]
        · simp [h2]
      · have := ih (k - 3) (by omega)
        rwa [show ptr + 3 + (k - 3) = ptr + k by omega] at this
    · intro h
      obtain ⟨x, hx⟩ := Option.isSome_iff_exists.mp (h 0 (by omega))
      obtain ⟨y, hy⟩ := Option.isSome_iff_exists.mp (h 1 (by omega))
      obtain ⟨z, hz⟩ := Option.isSome_iff_exists.mp (h 2 (by omega))
      rw [Nat.add_zero] at hx
      unfold copyRows
      simp only [hx, hy, hz]
      apply (copyRows_isSome_iff rd mk todo (i + 1) (ptr + 3) _).mpr
      intro k hk
      have := h (3 + k) (by omega)
      rwa [show ptr + (3 + k) = ptr + 3 + k by omega] at this

theorem readVector3d_isSome_iff (env : Env) (a : Array) (n : Nat)
    (ht : a.CheckType [TypeStr.float, TypeStr.double] = true) (hs : a.shape = [(n : Int), 3]) :
    (readVector3d env a []).isSome = true ↔
      ∀ k, k < 3 * n → (a.bytesAt a.type.itemsize k).isSome = true := by
  rcases (CheckType_double a).mp ht with hty | hty
  · have h := copyRows_isSome_iff (fun k => (a.Ptr_float k).map env.widen) Vector3d.mk n 0 0
      (List.replicate n (Vector3d.mk 0 0 0))
    simp [readVector3d, hs, resize, hty, TypeStr.itemsize] at h ⊢
    simpa [Array.Ptr_float] using h
  · have h := copyRows_isSome_iff a.Ptr_double Vector3d.mk n 0 0
      (List.replicate n (Vector3d.mk 0 0 0))
    simp [readVector3d, hs, resize, hty, TypeStr.itemsize] at h ⊢
    simpa [Array.Ptr_double] using h

theorem readVector3i_isSome_iff (a : Array) (n : Nat)
    (ht : a.CheckType [TypeStr.int32_t, TypeStr.int64_t] = true)
    (hs : a.shape = [(n : Int), 3]) :
    (readVector3i a []).isSome = true ↔
      ∀ k, k < 3 * n → (a.bytesAt a.type.itemsize k).isSome = true := by
  rcases (CheckType_int a).mp ht with hty | hty
  · have h := copyRows_isSome_iff a.Ptr_int32_t Vector3i.mk n 0 0
      (List.replicate n (Vector3i.mk 0 0 0))
    simp [readVector3i, hs, resize, hty, TypeStr.itemsize] at h ⊢
    simpa [Array.Ptr_int32_t] using h
  · have h := copyRows_isSome_iff (fun k => (a.Ptr_int64_t k).map narrow) Vector3i.mk n 0 0
      (List.replicate n (Vector3i.mk 0 0 0))
    simp [readVector3i, hs, resize, hty, TypeStr.itemsize] at h ⊢
    simpa [Array.Ptr_int64_t] using h

theorem bytesAt_isSome_iff (a : Array) (n : Nat) (hpos : 0 < a.type.itemsize)
    (hlen : a.data.length = 3 * n * a.type.itemsize) (k : Nat) :
    (a.bytesAt a.type.itemsize k).isSome = true ↔ k < 3 * n := by
  have hiff : a.type.itemsize * k + a.type.itemsize ≤ a.data.length ↔ k < 3 * n := by
    rw [hlen, show a.type.itemsize * k + a.type.itemsize = (k + 1) * a.type.itemsize by ring]
    constructor
    · intro h
      have := Nat.le_of_mul_le_mul_right h hpos
      omega
    · intro h
      exact Nat.mul_le_mul_right _ (by omega)
  unfold Array.bytesAt
  by_cases hb : a.type.itemsize * k + a.type.itemsize ≤ a.data.length
  · simp [hb, hiff.mp hb]
  · have hk : ¬k < 3 * n := fun h => hb (hiff.mpr h)
    simp [hb, Nat.le_of_not_lt hk]

theorem decoded_array_layout (a : Array) (K : Int) (hs : a.shape = [K, 3]) (hinv : a.Invariant)
    (ht : a.CheckType [TypeStr.float, TypeStr.double] = true ∨
      a.CheckType [TypeStr.int32_t, TypeStr.int64_t] = true) :
    ∃ n : Nat, a.shape = [(n : Int), 3] ∧ a.data.length = 3 * n * a.type.itemsize ∧
      ∀ k, (a.bytesAt a.type.itemsize k).isSome = true ↔ k < 3 * n := by
  have hpos : 0 < a.type.itemsize := by
    rcases ht with h | h
    · rcases (CheckType_double a).mp h with h | h <;> rw [h] <;> decide
    · rcases (CheckType_int a).mp h with h | h <;> rw [h] <;> decide
  obtain ⟨hK, -⟩ := rows_in_bounds a K hs hinv hpos
  obtain ⟨n, rfl⟩ := Int.eq_ofNat_of_zero_le hK
  have hlen : a.data.length = 3 * n * a.type.itemsize := by
    unfold Array.Invariant at hinv
    rw [hs] at hinv
    simp only [List.prod_cons, List.prod_nil, mul_one] at hinv
    have : a.data.length = n * 3 * a.type.itemsize := by exact_mod_cast hinv
    rw [this]; ring
  exact ⟨n, hs, hlen, bytesAt_isSome_iff a n hpos hlen⟩

/-! ## The claims -/

/-- C1: when `CheckMessage` fails on the message, `ProcessMessage` returns a
reply whose status is `Status::ErrorProcessingMessage` and posts no work: it
makes no call to `SetGeometry`, whatever the request and the message. -/
theorem C1_rejected_message_error_reply (env : Env) (req : Request) (msg : SetMeshData)
    (hfail : (env.CheckMessage msg.data ":").1 = false) :
    ∃ out, ProcessMessage env req msg = some out ∧
      out.reply.code = StatusCode.ErrorProcessingMessage ∧ out.posted = [] :=
  ⟨_, ProcessMessage_rejected env req msg hfail, rfl, rfl⟩

/-- Witness of C1 on `rejectedMsg`. -/
theorem C1_rejected_message_error_reply_witness :
    (sampleEnv.CheckMessage rejectedMsg.data ":").1 = false ∧
      ∃ out, ProcessMessage sampleEnv sampleRequest rejectedMsg = some out ∧
        out.reply.code = StatusCode.ErrorProcessingMessage ∧ out.posted = [] :=
  ⟨by decide, C1_rejected_message_error_reply sampleEnv sampleRequest rejectedMsg (by decide)⟩

/-- C2: when `CheckMessage` succeeds, `ProcessMessage` returns the OK status
and calls `SetGeometry` exactly once, with a non-null geometry and the path,
time and layer of the message, whichever way the type and shape checks on
vertices, normals, colors and faces go. The reads are kept inside the buffers
by the TypedArray invariant and by the shape `[N, 3]` of decodable vertices. -/
theorem C2_accepted_message_ok_reply (env : Env) (req : Request) (msg : SetMeshData)
    (hg : (env.CheckMessage msg.data ":").1 = true) (hinv : msg.data.Invariant)
    (hvs : msg.data.vertices.CheckType [TypeStr.float, TypeStr.double] = true →
      msg.data.vertices.CheckShape [-1, 3] = true) :
    ∃ g, ProcessMessage env req msg =
        some
          { reply := Status.OK
            posted := SetGeometry (some g) msg.path msg.time msg.layer } ∧
      SetGeometry (some g) msg.path msg.time msg.layer =
        [{ geom := some g, path := msg.path, time := msg.time, layer := msg.layer }] := by
  obtain ⟨g, hg1, -⟩ := ProcessMessage_total env req msg hg hinv hvs
  exact ⟨g, hg1, rfl⟩

/-- Witness of C2 on `meshMsg`. -/
theorem C2_accepted_message_ok_reply_witness :
    ∃ g, ProcessMessage sampleEnv sampleRequest meshMsg =
        some { reply := Status.OK, posted := SetGeometry (some g) "mesh" 3 "" } ∧
      SetGeometry (some g) "mesh" 3 "" =
        [{ geom := some g, path := "mesh", time := 3, layer := "" }] :=
  C2_accepted_message_ok_reply sampleEnv sampleRequest meshMsg (by decide) (by decide)
    (by decide)

/-- C3: for a message that passes `CheckMessage`, the geometry handed to
`SetGeometry` is a TriangleMesh when `faces.CheckNonEmpty()` is true and a
PointCloud when it is false; its kind is a function of that answer alone. -/
theorem C3_kind_decided_by_faces (env : Env) (req : Request) (msg : SetMeshData)
    (hg : (env.CheckMessage msg.data ":").1 = true) (hinv : msg.data.Invariant)
    (hvs : msg.data.vertices.CheckType [TypeStr.float, TypeStr.double] = true →
      msg.data.vertices.CheckShape [-1, 3] = true) :
    ∃ g, ProcessMessage env req msg =
        some
          { reply := Status.OK
            posted := SetGeometry (some g) msg.path msg.time msg.layer } ∧
      g.GetGeometryType =
        if msg.data.faces.CheckNonEmpty = true then GeometryType.TriangleMesh
        else GeometryType.PointCloud :=
  ProcessMessage_total env req msg hg hinv hvs

/-- Witness of C3 on `cloudMsg`, whose faces are empty. -/
theorem C3_kind_decided_by_faces_witness :
    ∃ g, ProcessMessage sampleEnv sampleRequest cloudMsg =
        some { reply := Status.OK, posted := SetGeometry (some g) "cloud" 0 "l" } ∧
      g.GetGeometryType = GeometryType.PointCloud :=
  C3_kind_decided_by_faces sampleEnv sampleRequest cloudMsg (by decide) (by decide) (by decide)

/-- C4: for a message that passes `CheckMessage` and whose vertices are of
type float32 or float64 and shape `[N, 3]`, the position list of the geometry
(`points_` of the PointCloud when the faces are empty, `vertices_` of the
TriangleMesh otherwise) has exactly `N` records, and record `i` is made of the
elements `3i`, `3i+1`, `3i+2` of the vertices buffer, float elements converted
to double, in buffer order. -/
theorem C4_positions_are_buffer_triples (env : Env) (req : Request) (msg : SetMeshData)
    (N : Nat) (hg : (env.CheckMessage msg.data ":").1 = true)
    (hty : msg.data.vertices.CheckType [TypeStr.float, TypeStr.double] = true)
    (hs : msg.data.vertices.shape = [(N : Int), 3]) (hinv : msg.data.Invariant) :
    ∃ rows : List Vector3d,
      (rows.length = N ∧
        ∀ i, i < N → ∃ x y z,
          msg.data.vertices.doubleAt env (3 * i) = some x ∧
          msg.data.vertices.doubleAt env (3 * i + 1) = some y ∧
          msg.data.vertices.doubleAt env (3 * i + 2) = some z ∧
          rows[i]? = some (Vector3d.mk x y z)) ∧
      ((msg.data.faces.CheckNonEmpty = false ∧ ∃ n c,
          ProcessMessage env req msg =
            some
              { reply := Status.OK
                posted :=
                  SetGeometry
                    (some (Geometry3D.PointCloud { points_ := rows, normals_ := n, colors_ := c }))
                    msg.path msg.time msg.layer }) ∨
        (msg.data.faces.CheckNonEmpty = true ∧ ∃ vn vc t,
          ProcessMessage env req msg =
            some
              { reply := Status.OK
                posted :=
                  SetGeometry
                    (some (Geometry3D.TriangleMesh
                      { vertices_ := rows, vertex_normals_ := vn, vertex_colors_ := vc,
                        triangles_ := t }))
                    msg.path msg.time msg.layer })) := by
  obtain ⟨hv, hfa, hat⟩ := hinv
  obtain ⟨-, rows, hr, htr⟩ := readVector3d_spec env msg.data.vertices N hty hs hv
  obtain ⟨vn, hvn⟩ := readAttribute_total env msg.data.vertex_attributes "normals" hat
  obtain ⟨vc, hvc⟩ := readAttribute_total env msg.data.vertex_attributes "colors" hat
  rw [Int.toNat_ofNat] at htr
  refine ⟨rows, htr, ?_⟩
  by_cases hf : msg.data.faces.CheckNonEmpty = true
  · obtain ⟨t, ht⟩ := faces_total msg.data.faces hfa
    exact Or.inr ⟨hf, vn, vc, t,
      ProcessMessage_mesh env req msg hg hf rows vn vc t (by rw [if_pos hty, hr]) hvn hvc ht⟩
  · have hf0 : msg.data.faces.CheckNonEmpty = false := by simpa using hf
    exact Or.inl ⟨hf0, vn, vc, ProcessMessage_cloud env req msg hg hf0 hty rows vn vc hr hvn hvc⟩

/-- Witness of C4 on `cloudMsg`: two float vertices. -/
theorem C4_positions_are_buffer_triples_witness :
    ∃ rows : List Vector3d,
      (rows.length = 2 ∧
        ∀ i, i < 2 → ∃ x y z,
          twoPoints.doubleAt sampleEnv (3 * i) = some x ∧
          twoPoints.doubleAt sampleEnv (3 * i + 1) = some y ∧
          twoPoints.doubleAt sampleEnv (3 * i + 2) = some z ∧
          rows[i]? = some (Vector3d.mk x y z)) ∧
      ((noFaces.CheckNonEmpty = false ∧ ∃ n c,
          ProcessMessage sampleEnv sampleRequest cloudMsg =
            some
              { reply := Status.OK
                posted :=
                  SetGeometry
                    (some (Geometry3D.PointCloud { points_ := rows, normals_ := n, colors_ := c }))
                    "cloud" 0 "l" }) ∨
        (noFaces.CheckNonEmpty = true ∧ ∃ vn vc t,
          ProcessMessage sampleEnv sampleRequest cloudMsg =
            some
              { reply := Status.OK
                posted :=
                  SetGeometry
                    (some (Geometry3D.TriangleMesh
                      { vertices_ := rows, vertex_normals_ := vn, vertex_colors_ := vc,
                        triangles_ := t }))
                    "cloud" 0 "l" })) :=
  C4_positions_are_buffer_triples sampleEnv sampleRequest cloudMsg 2 (by decide) (by decide)
    (by decide) (by decide)

/-- C5: for a message that passes `CheckMessage`, with vertices of type
float32 or float64 and shape `[N, 3]` and with non-empty faces of type int32
and shape `[M, 3]`, `ProcessMessage` hands a TriangleMesh to `SetGeometry`
whose `triangles_` has exactly `M` entries, entry `i` being the elements `3i`,
`3i+1`, `3i+2` of the faces buffer. -/
theorem C5_int32_faces_are_buffer_triples (env : Env) (req : Request) (msg : SetMeshData)
    (N M : Nat) (hg : (env.CheckMessage msg.data ":").1 = true)
    (hty : msg.data.vertices.CheckType [TypeStr.float, TypeStr.double] = true)
    (hs : msg.data.vertices.shape = [(N : Int), 3])
    (hf : msg.data.faces.CheckNonEmpty = true)
    (hft : msg.data.faces.type = TypeStr.int32_t)
    (hfs : msg.data.faces.shape = [(M : Int), 3]) (hinv : msg.data.Invariant) :
    ∃ v vn vc t,
      ProcessMessage env req msg =
        some
          { reply := Status.OK
            posted :=
              SetGeometry
                (some (Geometry3D.TriangleMesh
                  { vertices_ := v, vertex_normals_ := vn, vertex_colors_ := vc,
                    triangles_ := t }))
                msg.path msg.time msg.layer } ∧
      t.length = M ∧
      ∀ i, i < M → ∃ a b c,
        msg.data.faces.Ptr_int32_t (3 * i) = some a ∧
        msg.data.faces.Ptr_int32_t (3 * i + 1) = some b ∧
        msg.data.faces.Ptr_int32_t (3 * i + 2) = some c ∧
        t[i]? = some (Vector3i.mk a b c) := by
  obtain ⟨hv, hfa, hat⟩ := hinv
  obtain ⟨-, rows, hr, -⟩ := readVector3d_spec env msg.data.vertices N hty hs hv
  obtain ⟨vn, hvn⟩ := readAttribute_total env msg.data.vertex_attributes "normals" hat
  obtain ⟨vc, hvc⟩ := readAttribute_total env msg.data.vertex_attributes "colors" hat
  have hfty : msg.data.faces.CheckType [TypeStr.int32_t, TypeStr.int64_t] = true :=
    (CheckType_int _).mpr (Or.inl hft)
  obtain ⟨-, t, htr, htt⟩ := readVector3i_spec msg.data.faces M hfty hfs hfa
  have hfun : msg.data.faces.intAt = msg.data.faces.Ptr_int32_t := by
    funext k; simp [Array.intAt, hft]
  rw [Int.toNat_ofNat, hfun] at htt
  refine ⟨rows, vn, vc, t, ?_, htt.1, htt.2⟩
  exact ProcessMessage_mesh env req msg hg hf rows vn vc t (by rw [if_pos hty, hr]) hvn hvc
    (by rw [if_pos ⟨CheckShape_of_rows _ _ hfs, hfty⟩, htr])

/-- Witness of C5 on `meshMsg`: one int32 triangle. -/
theorem C5_int32_faces_are_buffer_triples_witness :
    ∃ v vn vc t,
      ProcessMessage sampleEnv sampleRequest meshMsg =
        some
          { reply := Status.OK
            posted :=
              SetGeometry
                (some (Geometry3D.TriangleMesh
                  { vertices_ := v, vertex_normals_ := vn, vertex_colors_ := vc,
                    triangles_ := t }))
                "mesh" 3 "" } ∧
      t.length = 1 ∧
      ∀ i, i < 1 → ∃ a b c,
        meshMsg.data.faces.Ptr_int32_t (3 * i) = some a ∧
        meshMsg.data.faces.Ptr_int32_t (3 * i + 1) = some b ∧
        meshMsg.data.faces.Ptr_int32_t (3 * i + 2) = some c ∧
        t[i]? = some (Vector3i.mk a b c) :=
  C5_int32_faces_are_buffer_triples sampleEnv sampleRequest meshMsg 2 1 (by decide) (by decide)
    (by decide) (by decide) (by decide) (by decide) (by decide)

/-- C6: on the TriangleMesh path, for each of the names normals and colors and
with no assumption on the type check of the vertices: when the name is absent
from `vertex_attributes`, or its array fails `CheckType({float32, float64})`
or `CheckShape([-1, 3])`, the mesh list (`vertex_normals_` / `vertex_colors_`)
is empty; otherwise, the shape being `[K, 3]`, the list has exactly `K`
records and record `i` is the `i`-th consecutive triple of the attribute
buffer. -/
theorem C6_mesh_attributes (env : Env) (req : Request) (msg : SetMeshData)
    (hg : (env.CheckMessage msg.data ":").1 = true) (hf : msg.data.faces.CheckNonEmpty = true)
    (hinv : msg.data.Invariant)
    (hvs : msg.data.vertices.CheckType [TypeStr.float, TypeStr.double] = true →
      msg.data.vertices.CheckShape [-1, 3] = true) :
    ∃ v vn vc t,
      ProcessMessage env req msg =
        some
          { reply := Status.OK
            posted :=
              SetGeometry
                (some (Geometry3D.TriangleMesh
                  { vertices_ := v, vertex_normals_ := vn, vertex_colors_ := vc,
                    triangles_ := t }))
                msg.path msg.time msg.layer } ∧
      ∀ (name : String) (rows : List Vector3d),
        (name = "normals" ∧ rows = vn) ∨ (name = "colors" ∧ rows = vc) →
        (msg.data.vertex_attributes.lookup name = none → rows = []) ∧
        (∀ arr, msg.data.vertex_attributes.lookup name = some arr →
          arr.CheckType [TypeStr.float, TypeStr.double] = false ∨
            arr.CheckShape [-1, 3] = false →
          rows = []) ∧
        (∀ arr (K : Int), msg.data.vertex_attributes.lookup name = some arr →
          arr.CheckType [TypeStr.float, TypeStr.double] = true → arr.shape = [K, 3] →
          (rows.length : Int) = K ∧
            ∀ i, i < rows.length → ∃ x y z,
              arr.doubleAt env (3 * i) = some x ∧ arr.doubleAt env (3 * i + 1) = some y ∧
              arr.doubleAt env (3 * i + 2) = some z ∧ rows[i]? = some (Vector3d.mk x y z)) := by
  obtain ⟨v, vn, vc, t, -, hvn, hvc, -, hpm⟩ :=
    ProcessMessage_mesh_total env req msg hg hf hinv hvs
  refine ⟨v, vn, vc, t, hpm, ?_⟩
  rintro name rows (⟨rfl, rfl⟩ | ⟨rfl, rfl⟩)
  · exact readAttribute_char env _ "normals" rows hinv.2.2 hvn
  · exact readAttribute_char env _ "colors" rows hinv.2.2 hvc

/-- Witness of C6 on `meshMsg`: double normals of one row, colors of a wrong
shape. -/
theorem C6_mesh_attributes_witness :
    ∃ v vn vc t,
      ProcessMessage sampleEnv sampleRequest meshMsg =
        some
          { reply := Status.OK
            posted :=
              SetGeometry
                (some (Geometry3D.TriangleMesh
                  { vertices_ := v, vertex_normals_ := vn, vertex_colors_ := vc,
                    triangles_ := t }))
                "mesh" 3 "" } ∧
      ∀ (name : String) (rows : List Vector3d),
        (name = "normals" ∧ rows = vn) ∨ (name = "colors" ∧ rows = vc) →
        (meshMsg.data.vertex_attributes.lookup name = none → rows = []) ∧
        (∀ arr, meshMsg.data.vertex_attributes.lookup name = some arr →
          arr.CheckType [TypeStr.float, TypeStr.double] = false ∨
            arr.CheckShape [-1, 3] = false →
          rows = []) ∧
        (∀ arr (K : Int), meshMsg.data.vertex_attributes.lookup name = some arr →
          arr.CheckType [TypeStr.float, TypeStr.double] = true → arr.shape = [K, 3] →
          (rows.length : Int) = K ∧
            ∀ i, i < rows.length → ∃ x y z,
              arr.doubleAt sampleEnv (3 * i) = some x ∧
              arr.doubleAt sampleEnv (3 * i + 1) = some y ∧
              arr.doubleAt sampleEnv (3 * i + 2) = some z ∧
              rows[i]? = some (Vector3d.mk x y z)) :=
  C6_mesh_attributes sampleEnv sampleRequest meshMsg (by decide) (by decide) (by decide)
    (by decide)

/-- C7: for a message that passes `CheckMessage`, has empty faces, has
vertices of type float32 or float64 and shape `[N, 3]`, and carries a normals
attribute whose type is neither float32 nor float64, `ProcessMessage` returns
the OK status and hands `SetGeometry` a PointCloud with exactly `N` points,
taken from the vertices buffer, and an empty `normals_`. -/
theorem C7_bad_normals_type_cloud (env : Env) (req : Request) (msg : SetMeshData) (N : Nat)
    (arr : Array) (hg : (env.CheckMessage msg.data ":").1 = true)
    (hf : msg.data.faces.CheckNonEmpty = false)
    (hty : msg.data.vertices.CheckType [TypeStr.float, TypeStr.double] = true)
    (hs : msg.data.vertices.shape = [(N : Int), 3]) (hinv : msg.data.Invariant)
    (hl : msg.data.vertex_attributes.lookup "normals" = some arr)
    (hbad : arr.CheckType [TypeStr.float, TypeStr.double] = false) :
    ∃ p c,
      ProcessMessage env req msg =
        some
          { reply := Status.OK
            posted :=
              SetGeometry
                (some (Geometry3D.PointCloud { points_ := p, normals_ := [], colors_ := c }))
                msg.path msg.time msg.layer } ∧
      p.length = N ∧
      ∀ i, i < N → ∃ x y z,
        msg.data.vertices.doubleAt env (3 * i) = some x ∧
        msg.data.vertices.doubleAt env (3 * i + 1) = some y ∧
        msg.data.vertices.doubleAt env (3 * i + 2) = some z ∧
        p[i]? = some (Vector3d.mk x y z) := by
  obtain ⟨hv, -, hat⟩ := hinv
  obtain ⟨-, p, hp, htr⟩ := readVector3d_spec env msg.data.vertices N hty hs hv
  obtain ⟨c, hc⟩ := readAttribute_total env msg.data.vertex_attributes "colors" hat
  rw [Int.toNat_ofNat] at htr
  exact ⟨p, c,
    ProcessMessage_cloud env req msg hg hf hty p [] c hp
      (readAttribute_rejected env _ "normals" arr hl (Or.inl hbad)) hc,
    htr.1, htr.2⟩

/-- Witness of C7 on `cloudMsg`, whose normals are of type int32. -/
theorem C7_bad_normals_type_cloud_witness :
    ∃ p c,
      ProcessMessage sampleEnv sampleRequest cloudMsg =
        some
          { reply := Status.OK
            posted :=
              SetGeometry
                (some (Geometry3D.PointCloud { points_ := p, normals_ := [], colors_ := c }))
                "cloud" 0 "l" } ∧
      p.length = 2 ∧
      ∀ i, i < 2 → ∃ x y z,
        twoPoints.doubleAt sampleEnv (3 * i) = some x ∧
        twoPoints.doubleAt sampleEnv (3 * i + 1) = some y ∧
        twoPoints.doubleAt sampleEnv (3 * i + 2) = some z ∧
        p[i]? = some (Vector3d.mk x y z) :=
  C7_bad_normals_type_cloud sampleEnv sampleRequest cloudMsg 2
    { type := TypeStr.int32_t, shape := [1, 3], data := [1, 0, 0, 0, 0, 0, 0, 0, 0, 0, 0, 0] }
    (by decide) (by decide) (by decide) (by decide) (by decide) (by decide) (by decide)

/-- C8 fails as stated: `mismatchMsg` has two vertices and a normals array of
one row; `ProcessMessage` builds a PointCloud with two points and one normal,
a non-empty normals list whose length is not that of the points. -/
theorem C8_counterexample_one_normal_two_points :
    ProcessMessage sampleEnv sampleRequest mismatchMsg =
        some
          { reply := Status.OK
            posted :=
              SetGeometry
                (some (Geometry3D.PointCloud
                  { points_ :=
                      [Vector3d.mk 4607182418800017408 4611686018427387904 4613937818241073152,
                       Vector3d.mk 4616189618054758400 4617315517961601024 4618441417868443648]
                    normals_ := [Vector3d.mk 0 0 4607182418800017408]
                    colors_ := [] }))
                "cloud" 1 "" } ∧
      [Vector3d.mk 0 0 4607182418800017408] ≠ [] ∧
      [Vector3d.mk 0 0 4607182418800017408].length ≠
        [Vector3d.mk 4607182418800017408 4611686018427387904 4613937818241073152,
         Vector3d.mk 4616189618054758400 4617315517961601024 4618441417868443648].length := by
  decide

/-- C8, amended: for every geometry that `ProcessMessage` builds, a non-empty
normals list has as many entries as the normals array of the message has rows
(`shape[0]`), and it has the length of the points/vertices list when that row
count is the row count of the vertices array and, on the mesh path, the
vertices passed their type check; likewise for colors. -/
theorem C8_attribute_length_is_row_count (env : Env) (req : Request) (msg : SetMeshData)
    (hg : (env.CheckMessage msg.data ":").1 = true) (hinv : msg.data.Invariant)
    (hvs : msg.data.vertices.CheckType [TypeStr.float, TypeStr.double] = true →
      msg.data.vertices.CheckShape [-1, 3] = true) :
    ∃ g, ProcessMessage env req msg =
        some
          { reply := Status.OK
            posted := SetGeometry (some g) msg.path msg.time msg.layer } ∧
      (∀ pcd, g = Geometry3D.PointCloud pcd →
        (pcd.normals_ ≠ [] →
          ∃ arr, msg.data.vertex_attributes.lookup "normals" = some arr ∧
            arr.shape.head? = some (pcd.normals_.length : Int) ∧
            (arr.shape.head? = msg.data.vertices.shape.head? →
              pcd.normals_.length = pcd.points_.length)) ∧
        (pcd.colors_ ≠ [] →
          ∃ arr, msg.data.vertex_attributes.lookup "colors" = some arr ∧
            arr.shape.head? = some (pcd.colors_.length : Int) ∧
            (arr.shape.head? = msg.data.vertices.shape.head? →
              pcd.colors_.length = pcd.points_.length))) ∧
      (∀ mesh, g = Geometry3D.TriangleMesh mesh →
        (mesh.vertex_normals_ ≠ [] →
          ∃ arr, msg.data.vertex_attributes.lookup "normals" = some arr ∧
            arr.shape.head? = some (mesh.vertex_normals_.length : Int) ∧
            (msg.data.vertices.CheckType [TypeStr.float, TypeStr.double] = true →
              arr.shape.head? = msg.data.vertices.shape.head? →
              mesh.vertex_normals_.length = mesh.vertices_.length)) ∧
        (mesh.vertex_colors_ ≠ [] →
          ∃ arr, msg.data.vertex_attributes.lookup "colors" = some arr ∧
            arr.shape.head? = some (mesh.vertex_colors_.length : Int) ∧
            (msg.data.vertices.CheckType [TypeStr.float, TypeStr.double] = true →
              arr.shape.head? = msg.data.vertices.shape.head? →
              mesh.vertex_colors_.length = mesh.vertices_.length))) := by
  by_cases hf : msg.data.faces.CheckNonEmpty = true
  · obtain ⟨v, vn, vc, t, hv, hvn, hvc, -, hpm⟩ :=
      ProcessMessage_mesh_total env req msg hg hf hinv hvs
    refine ⟨_, hpm, (fun pcd h => nomatch h), ?_⟩
    intro mesh hmesh
    cases hmesh
    refine ⟨fun hne => ?_, fun hne => ?_⟩
    · obtain ⟨arr, hl, hsh⟩ :=
        readAttribute_nonempty env _ "normals" vn hinv.2.2 hvn hne
      refine ⟨arr, hl, by rw [hsh]; rfl, fun hty heq => ?_⟩
      rw [if_pos hty] at hv
      rw [hsh, readVector3d_length env _ v hty (hvs hty) hinv.1 hv] at heq
      have h1 : (vn.length : Int) = (v.length : Int) := Option.some.inj heq
      exact_mod_cast h1
    · obtain ⟨arr, hl, hsh⟩ :=
        readAttribute_nonempty env _ "colors" vc hinv.2.2 hvc hne
      refine ⟨arr, hl, by rw [hsh]; rfl, fun hty heq => ?_⟩
      rw [if_pos hty] at hv
      rw [hsh, readVector3d_length env _ v hty (hvs hty) hinv.1 hv] at heq
      have h1 : (vc.length : Int) = (v.length : Int) := Option.some.inj heq
      exact_mod_cast h1
  · have hf0 : msg.data.faces.CheckNonEmpty = false := by simpa using hf
    by_cases hty : msg.data.vertices.CheckType [TypeStr.float, TypeStr.double] = true
    · obtain ⟨p, n, c, hp, hn, hc, hpm⟩ :=
        ProcessMessage_cloud_total env req msg hg hf0 hinv hty (hvs hty)
      refine ⟨_, hpm, ?_, fun mesh h => nomatch h⟩
      intro pcd hpcd
      cases hpcd
      have hlen := readVector3d_length env _ p hty (hvs hty) hinv.1 hp
      exact ⟨fun hne => attribute_length env _ "normals" _ n p hinv.2.2 hn hne hlen,
        fun hne => attribute_length env _ "colors" _ c p hinv.2.2 hc hne hlen⟩
    · refine ⟨_, ProcessMessage_cloud_skipped env req msg hg hf0 (by simpa using hty), ?_,
        fun mesh h => nomatch h⟩
      intro pcd hpcd
      cases hpcd
      exact ⟨fun hne => absurd rfl hne, fun hne => absurd rfl hne⟩

/-- Witness of the amended C8 on `mismatchMsg`. -/
theorem C8_attribute_length_is_row_count_witness :
    ∃ g, ProcessMessage sampleEnv sampleRequest mismatchMsg =
        some { reply := Status.OK, posted := SetGeometry (some g) "cloud" 1 "" } ∧
      (∀ pcd, g = Geometry3D.PointCloud pcd →
        (pcd.normals_ ≠ [] →
          ∃ arr, mismatchMsg.data.vertex_attributes.lookup "normals" = some arr ∧
            arr.shape.head? = some (pcd.normals_.length : Int) ∧
            (arr.shape.head? = mismatchMsg.data.vertices.shape.head? →
              pcd.normals_.length = pcd.points_.length)) ∧
        (pcd.colors_ ≠ [] →
          ∃ arr, mismatchMsg.data.vertex_attributes.lookup "colors" = some arr ∧
            arr.shape.head? = some (pcd.colors_.length : Int) ∧
            (arr.shape.head? = mismatchMsg.data.vertices.shape.head? →
              pcd.colors_.length = pcd.points_.length))) ∧
      (∀ mesh, g = Geometry3D.TriangleMesh mesh →
        (mesh.vertex_normals_ ≠ [] →
          ∃ arr, mismatchMsg.data.vertex_attributes.lookup "normals" = some arr ∧
            arr.shape.head? = some (mesh.vertex_normals_.length : Int) ∧
            (mismatchMsg.data.vertices.CheckType [TypeStr.float, TypeStr.double] = true →
              arr.shape.head? = mismatchMsg.data.vertices.shape.head? →
              mesh.vertex_normals_.length = mesh.vertices_.length)) ∧
        (mesh.vertex_colors_ ≠ [] →
          ∃ arr, mismatchMsg.data.vertex_attributes.lookup "colors" = some arr ∧
            arr.shape.head? = some (mesh.vertex_colors_.length : Int) ∧
            (mismatchMsg.data.vertices.CheckType [TypeStr.float, TypeStr.double] = true →
              arr.shape.head? = mismatchMsg.data.vertices.shape.head? →
              mesh.vertex_colors_.length = mesh.vertices_.length))) :=
  C8_attribute_length_is_row_count sampleEnv sampleRequest mismatchMsg (by decide) (by decide)
    (by decide)

/-- C9 fails as stated: the triples `("a", "b", 0)` and `("ab", "", 0)` of
(path, layer, time) differ, and `SetGeometry` computes the key `"geom_ab0"`
for both. -/
theorem C9_counterexample_shared_key :
    (("a", "b", (0 : Int)) : String × String × Int) ≠ ("ab", "", 0) ∧
      (SetGeometry (some (Geometry3D.TriangleMesh {})) "a" 0 "b").map Closure.key =
        ["geom_ab0"] ∧
      (SetGeometry (some (Geometry3D.TriangleMesh {})) "ab" 0 "").map Closure.key =
        ["geom_ab0"] := by
  decide

/-- C9, amended: the key `"geom_" + path + layer + to_string(time)` that
`SetGeometry` computes is a function of (path, layer, time) alone, and two
triples that differ in exactly one component have different keys: with the
other two components equal, the keys are equal exactly when the paths, the
layers, or the times are. -/
theorem C9_key_injective_in_each_component (g g2 : Option Geometry3D)
    (path path2 layer layer2 : String) (time time2 : Int) :
    (SetGeometry g path time layer).map Closure.key =
        (SetGeometry g2 path time layer).map Closure.key ∧
      ((SetGeometry g path time layer).map Closure.key =
        (SetGeometry g2 path2 time layer).map Closure.key ↔ path = path2) ∧
      ((SetGeometry g path time layer).map Closure.key =
        (SetGeometry g2 path time layer2).map Closure.key ↔ layer = layer2) ∧
      ((SetGeometry g path time layer).map Closure.key =
        (SetGeometry g2 path time2 layer).map Closure.key ↔ time = time2) := by
  refine ⟨rfl, ⟨fun h => ?_, fun h => by rw [h]; rfl⟩, ⟨fun h => ?_, fun h => by rw [h]; rfl⟩,
    ⟨fun h => ?_, fun h => by rw [h]; rfl⟩⟩
  · have hk := congrArg String.data (List.cons.inj h).1
    rw [key_data, key_data] at hk
    simp only [List.append_assoc, List.append_cancel_left_eq] at hk
    have hk2 := List.append_cancel_right hk
    exact string_eq_of_data _ _ hk2
  · have hk := congrArg String.data (List.cons.inj h).1
    rw [key_data, key_data] at hk
    simp only [List.append_assoc, List.append_cancel_left_eq] at hk
    have hk2 := List.append_cancel_right hk
    exact string_eq_of_data _ _ hk2
  · have hk := congrArg String.data (List.cons.inj h).1
    rw [key_data, key_data] at hk
    simp only [List.append_assoc, List.append_cancel_left_eq] at hk
    exact toString_int_data_inj _ _ hk

/-- C10: the unit of work that `SetGeometry` posts makes, in this order and
nothing else: for a PointCloud with `time < 1`, `UpdatePointcloudUI`,
`AddGeometry(key, geometry, default material)`, `UpdatePointcloudCamera`,
`ForceRedraw`; for a PointCloud with `time >= 1`, `AddGeometry` then
`ForceRedraw`; for a TriangleMesh, `AddGeometry` only. In each case
`AddGeometry` is called once, with key `"geom_" + path + layer +
to_string(time)`. -/
theorem C10_posted_work_calls (path layer : String) (time : Int) (pcd : PointCloud)
    (mesh : TriangleMesh) :
    (SetGeometry (some (Geometry3D.PointCloud pcd)) path time layer).map Closure.run =
        [some
          (if time < 1 then
            [UICall.UpdatePointcloudUI,
             UICall.AddGeometry ("geom_" ++ path ++ layer ++ toString time)
               (Geometry3D.PointCloud pcd) {},
             UICall.UpdatePointcloudCamera,
             UICall.ForceRedraw]
          else
            [UICall.AddGeometry ("geom_" ++ path ++ layer ++ toString time)
               (Geometry3D.PointCloud pcd) {},
             UICall.ForceRedraw])] ∧
      (SetGeometry (some (Geometry3D.TriangleMesh mesh)) path time layer).map Closure.run =
        [some
          [UICall.AddGeometry ("geom_" ++ path ++ layer ++ toString time)
            (Geometry3D.TriangleMesh mesh) {}]] := by
  by_cases h : time < 1 <;>
    simp [SetGeometry, Closure.run, Closure.key, Geometry3D.GetGeometryType, h]

/-- C11: the optional attributes are decoded independently. For two accepted
messages with the same vertices and faces: when they also have the same colors
entry (they differ in the normals entry only), `ProcessMessage` gives the same
kind of geometry, the same points/vertices, the same colors, the same
triangles and the OK status for both; and symmetrically, with the same normals
entry, everything but the colors is the same. -/
theorem C11_attributes_decoded_independently (env : Env) (req req2 : Request)
    (msg msg2 : SetMeshData)
    (hg : (env.CheckMessage msg.data ":").1 = true)
    (hg2 : (env.CheckMessage msg2.data ":").1 = true)
    (hinv : msg.data.Invariant) (hinv2 : msg2.data.Invariant)
    (hvs : msg.data.vertices.CheckType [TypeStr.float, TypeStr.double] = true →
      msg.data.vertices.CheckShape [-1, 3] = true)
    (hv : msg2.data.vertices = msg.data.vertices) (hfa : msg2.data.faces = msg.data.faces) :
    (msg2.data.vertex_attributes.lookup "colors" = msg.data.vertex_attributes.lookup "colors" →
      (∃ p n n2 c,
        ProcessMessage env req msg =
          some
            { reply := Status.OK
              posted :=
                SetGeometry
                  (some (Geometry3D.PointCloud { points_ := p, normals_ := n, colors_ := c }))
                  msg.path msg.time msg.layer } ∧
        ProcessMessage env req2 msg2 =
          some
            { reply := Status.OK
              posted :=
                SetGeometry
                  (some (Geometry3D.PointCloud { points_ := p, normals_ := n2, colors_ := c }))
                  msg2.path msg2.time msg2.layer }) ∨
      (∃ v vn vn2 vc t,
        ProcessMessage env req msg =
          some
            { reply := Status.OK
              posted :=
                SetGeometry
                  (some (Geometry3D.TriangleMesh
                    { vertices_ := v, vertex_normals_ := vn, vertex_colors_ := vc,
                      triangles_ := t }))
                  msg.path msg.time msg.layer } ∧
        ProcessMessage env req2 msg2 =
          some
            { reply := Status.OK
              posted :=
                SetGeometry
                  (some (Geometry3D.TriangleMesh
                    { vertices_ := v, vertex_normals_ := vn2, vertex_colors_ := vc,
                      triangles_ := t }))
                  msg2.path msg2.time msg2.layer })) ∧
    (msg2.data.vertex_attributes.lookup "normals" =
        msg.data.vertex_attributes.lookup "normals" →
      (∃ p n c c2,
        ProcessMessage env req msg =
          some
            { reply := Status.OK
              posted :=
                SetGeometry
                  (some (Geometry3D.PointCloud { points_ := p, normals_ := n, colors_ := c }))
                  msg.path msg.time msg.layer } ∧
        ProcessMessage env req2 msg2 =
          some
            { reply := Status.OK
              posted :=
                SetGeometry
                  (some (Geometry3D.PointCloud { points_ := p, normals_ := n, colors_ := c2 }))
                  msg2.path msg2.time msg2.layer }) ∨
      (∃ v vn vc vc2 t,
        ProcessMessage env req msg =
          some
            { reply := Status.OK
              posted :=
                SetGeometry
                  (some (Geometry3D.TriangleMesh
                    { vertices_ := v, vertex_normals_ := vn, vertex_colors_ := vc,
                      triangles_ := t }))
                  msg.path msg.time msg.layer } ∧
        ProcessMessage env req2 msg2 =
          some
            { reply := Status.OK
              posted :=
                SetGeometry
                  (some (Geometry3D.TriangleMesh
                    { vertices_ := v, vertex_normals_ := vn, vertex_colors_ := vc2,
                      triangles_ := t }))
                  msg2.path msg2.time msg2.layer })) := by
  have hvs2 : msg2.data.vertices.CheckType [TypeStr.float, TypeStr.double] = true →
      msg2.data.vertices.CheckShape [-1, 3] = true := by rw [hv]; exact hvs
  by_cases hf : msg.data.faces.CheckNonEmpty = true
  · have hf2 : msg2.data.faces.CheckNonEmpty = true := by rw [hfa]; exact hf
    obtain ⟨v, vn, vc, t, e1, e2, e3, e4, hpm⟩ :=
      ProcessMessage_mesh_total env req msg hg hf hinv hvs
    obtain ⟨v2, vn2, vc2, t2, f1, f2, f3, f4, hpm2⟩ :=
      ProcessMessage_mesh_total env req2 msg2 hg2 hf2 hinv2 hvs2
    rw [hv, e1] at f1
    rw [hfa, e4] at f4
    cases f1
    cases f4
    refine ⟨fun hc => Or.inr ⟨v, vn, vn2, vc, t, hpm, ?_⟩,
      fun hn => Or.inr ⟨v, vn, vc, vc2, t, hpm, ?_⟩⟩
    · have h3 : readAttribute env msg2.data.vertex_attributes "colors" [] =
          readAttribute env msg.data.vertex_attributes "colors" [] := by
        simp only [readAttribute, hc]
      rw [h3, e3] at f3
      cases f3
      exact hpm2
    · have h2 : readAttribute env msg2.data.vertex_attributes "normals" [] =
          readAttribute env msg.data.vertex_attributes "normals" [] := by
        simp only [readAttribute, hn]
      rw [h2, e2] at f2
      cases f2
      exact hpm2
  · have hf0 : msg.data.faces.CheckNonEmpty = false := by simpa using hf
    have hf2 : msg2.data.faces.CheckNonEmpty = false := by rw [hfa]; exact hf0
    by_cases hty : msg.data.vertices.CheckType [TypeStr.float, TypeStr.double] = true
    · have hty2 : msg2.data.vertices.CheckType [TypeStr.float, TypeStr.double] = true := by
        rw [hv]; exact hty
      obtain ⟨p, n, c, e1, e2, e3, hpm⟩ :=
        ProcessMessage_cloud_total env req msg hg hf0 hinv hty (hvs hty)
      obtain ⟨p2, n2, c2, f1, f2, f3, hpm2⟩ :=
        ProcessMessage_cloud_total env req2 msg2 hg2 hf2 hinv2 hty2 (hvs2 hty2)
      rw [hv, e1] at f1
      cases f1
      refine ⟨fun hc => Or.inl ⟨p, n, n2, c, hpm, ?_⟩, fun hn => Or.inl ⟨p, n, c, c2, hpm, ?_⟩⟩
      · have h3 : readAttribute env msg2.data.vertex_attributes "colors" [] =
            readAttribute env msg.data.vertex_attributes "colors" [] := by
          simp only [readAttribute, hc]
        rw [h3, e3] at f3
        cases f3
        exact hpm2
      · have h2 : readAttribute env msg2.data.vertex_attributes "normals" [] =
            readAttribute env msg.data.vertex_attributes "normals" [] := by
          simp only [readAttribute, hn]
        rw [h2, e2] at f2
        cases f2
        exact hpm2
    · have hty0 : msg.data.vertices.CheckType [TypeStr.float, TypeStr.double] = false := by
        simpa using hty
      have hty2 : msg2.data.vertices.CheckType [TypeStr.float, TypeStr.double] = false := by
        rw [hv]; exact hty0
      have hpm := ProcessMessage_cloud_skipped env req msg hg hf0 hty0
      have hpm2 := ProcessMessage_cloud_skipped env req2 msg2 hg2 hf2 hty2
      exact ⟨fun _ => Or.inl ⟨[], [], [], [], hpm, hpm2⟩,
        fun _ => Or.inl ⟨[], [], [], [], hpm, hpm2⟩⟩

/-- Witness of C11 on `meshMsg` and `meshMsgNoNormals`, which differ in the
presence of the normals entry only. -/
theorem C11_attributes_decoded_independently_witness :
    (∃ p n n2 c,
        ProcessMessage sampleEnv sampleRequest meshMsg =
          some
            { reply := Status.OK
              posted :=
                SetGeometry
                  (some (Geometry3D.PointCloud { points_ := p, normals_ := n, colors_ := c }))
                  "mesh" 3 "" } ∧
        ProcessMessage sampleEnv sampleRequest meshMsgNoNormals =
          some
            { reply := Status.OK
              posted :=
                SetGeometry
                  (some (Geometry3D.PointCloud { points_ := p, normals_ := n2, colors_ := c }))
                  "mesh" 3 "" }) ∨
      (∃ v vn vn2 vc t,
        ProcessMessage sampleEnv sampleRequest meshMsg =
          some
            { reply := Status.OK
              posted :=
                SetGeometry
                  (some (Geometry3D.TriangleMesh
                    { vertices_ := v, vertex_normals_ := vn, vertex_colors_ := vc,
                      triangles_ := t }))
                  "mesh" 3 "" } ∧
        ProcessMessage sampleEnv sampleRequest meshMsgNoNormals =
          some
            { reply := Status.OK
              posted :=
                SetGeometry
                  (some (Geometry3D.TriangleMesh
                    { vertices_ := v, vertex_normals_ := vn2, vertex_colors_ := vc,
                      triangles_ := t }))
                  "mesh" 3 "" }) :=
  (C11_attributes_decoded_independently sampleEnv sampleRequest sampleRequest meshMsg
    meshMsgNoNormals (by decide) (by decide) (by decide) (by decide) (by decide) (by decide)
    (by decide)).1 (by decide)

/-- C12: on the PointCloud path (faces empty), when the vertices fail
`CheckType({float32, float64})` the PointCloud handed to `SetGeometry` has
empty `points_`, `normals_` and `colors_`, whatever `vertex_attributes`
holds: normals and colors are looked at only inside the branch of a successful
vertices type check. -/
theorem C12_cloud_without_points_has_no_attributes (env : Env) (req : Request)
    (msg : SetMeshData) (hg : (env.CheckMessage msg.data ":").1 = true)
    (hf : msg.data.faces.CheckNonEmpty = false)
    (hty : msg.data.vertices.CheckType [TypeStr.float, TypeStr.double] = false) :
    ProcessMessage env req msg =
      some
        { reply := Status.OK
          posted :=
            SetGeometry
              (some (Geometry3D.PointCloud { points_ := [], normals_ := [], colors_ := [] }))
              msg.path msg.time msg.layer } :=
  ProcessMessage_cloud_skipped env req msg hg hf hty

/-- Witness of C12 on `intVerticesMsg`, whose normals and colors are double
arrays of shape `[1, 3]`. -/
theorem C12_cloud_without_points_has_no_attributes_witness :
    (∃ arr, intVerticesMsg.data.vertex_attributes.lookup "normals" = some arr ∧
        arr.CheckType [TypeStr.float, TypeStr.double] = true ∧
        arr.CheckShape [-1, 3] = true) ∧
      ProcessMessage sampleEnv sampleRequest intVerticesMsg =
        some
          { reply := Status.OK
            posted :=
              SetGeometry
                (some (Geometry3D.PointCloud { points_ := [], normals_ := [], colors_ := [] }))
                "cloud" 2 "" } :=
  ⟨⟨oneDoubleRow, by decide, by decide, by decide⟩,
    C12_cloud_without_points_has_no_attributes sampleEnv sampleRequest intVerticesMsg
      (by decide) (by decide) (by decide)⟩

/-- C13: on the TriangleMesh path, when the non-empty faces fail
`CheckShape([-1, 3])` or `CheckType({int32, int64})`, `ProcessMessage` still
returns the OK status and hands `SetGeometry` a TriangleMesh; its `triangles_`
is empty, and its vertices, normals and colors are the ones any accepted
message with the same vertices and attributes and with valid faces gets. -/
theorem C13_bad_faces_leave_triangles_empty (env : Env) (req : Request) (msg : SetMeshData)
    (hg : (env.CheckMessage msg.data ":").1 = true) (hf : msg.data.faces.CheckNonEmpty = true)
    (hbad : msg.data.faces.CheckShape [-1, 3] = false ∨
      msg.data.faces.CheckType [TypeStr.int32_t, TypeStr.int64_t] = false)
    (hinvV : msg.data.vertices.Invariant)
    (hinvA : ∀ p ∈ msg.data.vertex_attributes, p.2.Invariant)
    (hvs : msg.data.vertices.CheckType [TypeStr.float, TypeStr.double] = true →
      msg.data.vertices.CheckShape [-1, 3] = true) :
    ∃ v vn vc,
      ProcessMessage env req msg =
        some
          { reply := Status.OK
            posted :=
              SetGeometry
                (some (Geometry3D.TriangleMesh
                  { vertices_ := v, vertex_normals_ := vn, vertex_colors_ := vc,
                    triangles_ := [] }))
                msg.path msg.time msg.layer } ∧
      ∀ (req2 : Request) (msg2 : SetMeshData),
        msg2.data.vertices = msg.data.vertices →
        msg2.data.vertex_attributes = msg.data.vertex_attributes →
        (env.CheckMessage msg2.data ":").1 = true →
        msg2.data.faces.CheckNonEmpty = true →
        msg2.data.faces.CheckShape [-1, 3] = true →
        msg2.data.faces.CheckType [TypeStr.int32_t, TypeStr.int64_t] = true →
        msg2.data.faces.Invariant →
        ∃ t,
          ProcessMessage env req2 msg2 =
            some
              { reply := Status.OK
                posted :=
                  SetGeometry
                    (some (Geometry3D.TriangleMesh
                      { vertices_ := v, vertex_normals_ := vn, vertex_colors_ := vc,
                        triangles_ := t }))
                    msg2.path msg2.time msg2.layer } := by
  obtain ⟨vn, hvn⟩ := readAttribute_total env msg.data.vertex_attributes "normals" hinvA
  obtain ⟨vc, hvc⟩ := readAttribute_total env msg.data.vertex_attributes "colors" hinvA
  obtain ⟨v, hv1⟩ := vertices_total env msg.data.vertices hinvV hvs
  have hneg : ¬(msg.data.faces.CheckShape [-1, 3] = true ∧
      msg.data.faces.CheckType [TypeStr.int32_t, TypeStr.int64_t] = true) := by
    rintro ⟨h1, h2⟩
    rcases hbad with h | h
    · rw [h1] at h; cases h
    · rw [h2] at h; cases h
  refine ⟨v, vn, vc,
    ProcessMessage_mesh env req msg hg hf v vn vc [] hv1 hvn hvc (by rw [if_neg hneg]), ?_⟩
  intro req2 msg2 ev ea hg2 hf2 hs2 ht2 hinvF
  obtain ⟨t, ht⟩ := faces_total msg2.data.faces hinvF
  exact ⟨t,
    ProcessMessage_mesh env req2 msg2 hg2 hf2 v vn vc t (by rw [ev]; exact hv1)
      (by rw [ea]; exact hvn) (by rw [ea]; exact hvc) ht⟩

/-- Witness of C13 on `flatFacesMsg`, whose faces have shape `[2]`; `meshMsg`
is the same message with valid faces. -/
theorem C13_bad_faces_leave_triangles_empty_witness :
    ∃ v vn vc,
      ProcessMessage sampleEnv sampleRequest flatFacesMsg =
        some
          { reply := Status.OK
            posted :=
              SetGeometry
                (some (Geometry3D.TriangleMesh
                  { vertices_ := v, vertex_normals_ := vn, vertex_colors_ := vc,
                    triangles_ := [] }))
                "mesh" 3 "" } ∧
      ∃ t,
        ProcessMessage sampleEnv sampleRequest meshMsg =
          some
            { reply := Status.OK
              posted :=
                SetGeometry
                  (some (Geometry3D.TriangleMesh
                    { vertices_ := v, vertex_normals_ := vn, vertex_colors_ := vc,
                      triangles_ := t }))
                  "mesh" 3 "" } := by
  obtain ⟨v, vn, vc, h1, h2⟩ :=
    C13_bad_faces_leave_triangles_empty sampleEnv sampleRequest flatFacesMsg (by decide)
      (by decide) (by decide) (by decide) (by decide) (by decide)
  exact ⟨v, vn, vc, h1,
    h2 sampleRequest meshMsg (by decide) (by decide) (by decide) (by decide) (by decide)
      (by decide) (by decide)⟩

/-- C14: when `CheckMessage` fails, the string of the status that
`ProcessMessage` returns is the default string of
`Status::ErrorProcessingMessage` followed by `errstr` as `CheckMessage`
leaves it; `ProcessMessage` hands `errstr` over holding `":"`. -/
theorem C14_error_payload_is_concatenation (env : Env) (req : Request) (msg : SetMeshData)
    (hfail : (env.CheckMessage msg.data ":").1 = false) :
    ∃ out, ProcessMessage env req msg = some out ∧
      out.reply.str = env.ErrorProcessingMessage_str ++ (env.CheckMessage msg.data ":").2 :=
  ⟨_, ProcessMessage_rejected env req msg hfail, rfl⟩

/-- Witness of C14 on `rejectedMsg`: the sample validator appends its
diagnostic to the `":"` it receives. -/
theorem C14_error_payload_is_concatenation_witness :
    ∃ out, ProcessMessage sampleEnv sampleRequest rejectedMsg = some out ∧
      out.reply.str = "error while processing message" ++ ":invalid vertices array" :=
  C14_error_payload_is_concatenation sampleEnv sampleRequest rejectedMsg (by decide)

/-- C15: for non-empty faces of type int64 and shape `[M, 3]` on the
TriangleMesh path, `triangles_` has `M` entries and component `j` of triangle
`i` is the int64 element `3i + j` of the faces buffer converted to a 32-bit
`int`: the converted value lies in `[-2^31, 2^31 - 1]`, is congruent to the
source modulo `2^32`, and equals the source exactly when the source lies in
`[-2^31, 2^31 - 1]`. -/
theorem C15_int64_faces_are_narrowed (env : Env) (req : Request) (msg : SetMeshData) (M : Nat)
    (hg : (env.CheckMessage msg.data ":").1 = true) (hf : msg.data.faces.CheckNonEmpty = true)
    (hft : msg.data.faces.type = TypeStr.int64_t)
    (hfs : msg.data.faces.shape = [(M : Int), 3]) (hinv : msg.data.Invariant)
    (hvs : msg.data.vertices.CheckType [TypeStr.float, TypeStr.double] = true →
      msg.data.vertices.CheckShape [-1, 3] = true) :
    ∃ v vn vc t,
      ProcessMessage env req msg =
        some
          { reply := Status.OK
            posted :=
              SetGeometry
                (some (Geometry3D.TriangleMesh
                  { vertices_ := v, vertex_normals_ := vn, vertex_colors_ := vc,
                    triangles_ := t }))
                msg.path msg.time msg.layer } ∧
      t.length = M ∧
      (∀ i, i < M → ∃ a b c,
        msg.data.faces.Ptr_int64_t (3 * i) = some a ∧
        msg.data.faces.Ptr_int64_t (3 * i + 1) = some b ∧
        msg.data.faces.Ptr_int64_t (3 * i + 2) = some c ∧
        t[i]? = some (Vector3i.mk (narrow a) (narrow b) (narrow c))) ∧
      ∀ s : Int,
        -2 ^ 31 ≤ narrow s ∧ narrow s < 2 ^ 31 ∧ (s - narrow s) % 2 ^ 32 = 0 ∧
          (narrow s = s ↔ -2 ^ 31 ≤ s ∧ s < 2 ^ 31) := by
  obtain ⟨hv, hfa, hat⟩ := hinv
  obtain ⟨vn, hvn⟩ := readAttribute_total env msg.data.vertex_attributes "normals" hat
  obtain ⟨vc, hvc⟩ := readAttribute_total env msg.data.vertex_attributes "colors" hat
  obtain ⟨v, hv1⟩ := vertices_total env msg.data.vertices hv hvs
  have hfty : msg.data.faces.CheckType [TypeStr.int32_t, TypeStr.int64_t] = true :=
    (CheckType_int _).mpr (Or.inr hft)
  obtain ⟨-, t, htr, hlen, hrows⟩ := readVector3i_spec msg.data.faces M hfty hfs hfa
  rw [Int.toNat_ofNat] at hlen hrows
  refine ⟨v, vn, vc, t, ?_, hlen, ?_, narrow_spec⟩
  · exact ProcessMessage_mesh env req msg hg hf v vn vc t hv1 hvn hvc
      (by rw [if_pos ⟨CheckShape_of_rows _ _ hfs, hfty⟩, htr])
  · intro i hi
    obtain ⟨x, y, z, hx, hy, hz, hrow⟩ := hrows i hi
    have hfun : ∀ k, msg.data.faces.intAt k = (msg.data.faces.Ptr_int64_t k).map narrow := by
      intro k; simp [Array.intAt, hft]
    rw [hfun] at hx hy hz
    obtain ⟨a, ha, rfl⟩ := Option.map_eq_some'.mp hx
    obtain ⟨b, hb, rfl⟩ := Option.map_eq_some'.mp hy
    obtain ⟨c, hc, rfl⟩ := Option.map_eq_some'.mp hz
    exact ⟨a, b, c, ha, hb, hc, hrow⟩

/-- Witness of C15 on `int64FacesMsg`, whose triangle is `(2^32 + 5, -1, 7)`. -/
theorem C15_int64_faces_are_narrowed_witness :
    ∃ v vn vc t,
      ProcessMessage sampleEnv sampleRequest int64FacesMsg =
        some
          { reply := Status.OK
            posted :=
              SetGeometry
                (some (Geometry3D.TriangleMesh
                  { vertices_ := v, vertex_normals_ := vn, vertex_colors_ := vc,
                    triangles_ := t }))
                "mesh" 3 "" } ∧
      t.length = 1 ∧
      (∀ i, i < 1 → ∃ a b c,
        int64FacesMsg.data.faces.Ptr_int64_t (3 * i) = some a ∧
        int64FacesMsg.data.faces.Ptr_int64_t (3 * i + 1) = some b ∧
        int64FacesMsg.data.faces.Ptr_int64_t (3 * i + 2) = some c ∧
        t[i]? = some (Vector3i.mk (narrow a) (narrow b) (narrow c))) ∧
      ∀ s : Int,
        -2 ^ 31 ≤ narrow s ∧ narrow s < 2 ^ 31 ∧ (s - narrow s) % 2 ^ 32 = 0 ∧
          (narrow s = s ↔ -2 ^ 31 ≤ s ∧ s < 2 ^ 31) :=
  C15_int64_faces_are_narrowed sampleEnv sampleRequest int64FacesMsg 1 (by decide) (by decide)
    (by decide) (by decide) (by decide) (by decide)

/-- C16: the buffer reads of `ProcessMessage` stay in bounds. For a message
whose arrays hold exactly product(shape) elements and whose vertices, when of
type float32/float64, have shape `[N, 3]`, the run never leaves the buffers
(`ProcessMessage` is not `none`); and each array it decodes (the vertices that
pass the type check, a normals or colors array that passes the type and shape
checks, faces that pass the shape and type checks) has shape `[n, 3]`, holds
`3n` elements, the in-bounds element indices being exactly those below `3n`,
and the decoding loop over any buffer of that type and shape succeeds exactly
when the elements `0 .. 3n - 1` can be read: those are the indices it reads.
`ProcessMessage` does not check the shape of the vertices: on
`flatVerticesMsg`, float vertices of shape `[2]` holding two elements, an
accepting `CheckMessage` leads to a read past the buffer. -/
theorem C16_buffer_reads_in_bounds (env : Env) (req : Request) (msg : SetMeshData)
    (hinv : msg.data.Invariant)
    (hvs : msg.data.vertices.CheckType [TypeStr.float, TypeStr.double] = true →
      msg.data.vertices.CheckShape [-1, 3] = true) :
    (ProcessMessage env req msg).isSome = true ∧
    (∀ a : Array,
      (a = msg.data.vertices ∧ a.CheckType [TypeStr.float, TypeStr.double] = true) ∨
      (msg.data.vertex_attributes.lookup "normals" = some a ∧
        a.CheckType [TypeStr.float, TypeStr.double] = true ∧ a.CheckShape [-1, 3] = true) ∨
      (msg.data.vertex_attributes.lookup "colors" = some a ∧
        a.CheckType [TypeStr.float, TypeStr.double] = true ∧ a.CheckShape [-1, 3] = true) ∨
      (a = msg.data.faces ∧ a.CheckShape [-1, 3] = true ∧
        a.CheckType [TypeStr.int32_t, TypeStr.int64_t] = true) →
      ∃ n : Nat, a.shape = [(n : Int), 3] ∧ a.data.length = 3 * n * a.type.itemsize ∧
        (∀ k, (a.bytesAt a.type.itemsize k).isSome = true ↔ k < 3 * n) ∧
        ∀ a2 : Array, a2.type = a.type → a2.shape = a.shape →
          (a.CheckType [TypeStr.float, TypeStr.double] = true →
            ((readVector3d env a2 []).isSome = true ↔
              ∀ k, k < 3 * n → (a2.bytesAt a2.type.itemsize k).isSome = true)) ∧
          (a.CheckType [TypeStr.int32_t, TypeStr.int64_t] = true →
            ((readVector3i a2 []).isSome = true ↔
              ∀ k, k < 3 * n → (a2.bytesAt a2.type.itemsize k).isSome = true))) ∧
    flatVerticesMsg.data.Invariant ∧
    ((env.CheckMessage flatVerticesMsg.data ":").1 = true →
      ProcessMessage env req flatVerticesMsg = none) := by
  refine ⟨?_, ?_, by decide, ?_⟩
  · by_cases hg : (env.CheckMessage msg.data ":").1 = true
    · obtain ⟨g, hpm, -⟩ := ProcessMessage_total env req msg hg hinv hvs
      rw [hpm]; rfl
    · rw [ProcessMessage_rejected env req msg (by simpa using hg)]; rfl
  · intro a ha
    have hfacts : a.Invariant ∧ a.CheckShape [-1, 3] = true ∧
        (a.CheckType [TypeStr.float, TypeStr.double] = true ∨
          a.CheckType [TypeStr.int32_t, TypeStr.int64_t] = true) := by
      rcases ha with ⟨rfl, ht⟩ | ⟨hl, ht, hsh⟩ | ⟨hl, ht, hsh⟩ | ⟨rfl, hsh, ht⟩
      · exact ⟨hinv.1, hvs ht, Or.inl ht⟩
      · exact ⟨hinv.2.2 _ (lookup_mem _ _ _ hl), hsh, Or.inl ht⟩
      · exact ⟨hinv.2.2 _ (lookup_mem _ _ _ hl), hsh, Or.inl ht⟩
      · exact ⟨hinv.2.1, hsh, Or.inr ht⟩
    obtain ⟨hi, hsh, ht⟩ := hfacts
    obtain ⟨K, hK⟩ := CheckShape_rows a hsh
    obtain ⟨n, hn, hlen, hb⟩ := decoded_array_layout a K hK hi ht
    refine ⟨n, hn, hlen, hb, ?_⟩
    intro a2 hty2 hsh2
    refine ⟨fun h => ?_, fun h => ?_⟩
    · exact readVector3d_isSome_iff env a2 n
        (by simpa [Array.CheckType, hty2] using h) (by rw [hsh2, hn])
    · exact readVector3i_isSome_iff a2 n
        (by simpa [Array.CheckType, hty2] using h) (by rw [hsh2, hn])
  · intro hg
    have hf : flatVerticesMsg.data.faces.CheckNonEmpty = false := by decide
    have hty : flatVerticesMsg.data.vertices.CheckType [TypeStr.float, TypeStr.double] =
        true := by decide
    have hnone : readVector3d env flatVerticesMsg.data.vertices [] = none := by
      simp [readVector3d, flatVerticesMsg, resize, copyRows, Array.Ptr_float, Array.bytesAt]
    simp [ProcessMessage, hg, hf, hty, hnone]

/-- Witness of C16 on `meshMsg`. -/
theorem C16_buffer_reads_in_bounds_witness :
    (ProcessMessage sampleEnv sampleRequest meshMsg).isSome = true ∧
      ProcessMessage { sampleEnv with CheckMessage := fun _ errstr => (true, errstr) }
        sampleRequest flatVerticesMsg = none :=
  ⟨(C16_buffer_reads_in_bounds sampleEnv sampleRequest meshMsg (by decide) (by decide)).1,
    (C16_buffer_reads_in_bounds { sampleEnv with CheckMessage := fun _ errstr => (true, errstr) }
      sampleRequest meshMsg (by decide) (by decide)).2.2.2 rfl⟩

end open3d
